import Mathlib

/-!
Verification development for the SOOS DAST analysis orchestrator
(`src/main.py`).  The Python program is shallowly embedded: the
`SOOSDASTAnalysis` instance fields become a Lean structure, each method
becomes a Lean function, the HTTP world is an oracle mapping each attempt
index to its outcome, and process exit / `exit_app` / raised exceptions
become explicit result constructors.

`helpers/constants.py`, `helpers/utils.py` and `model/log_level.py` are
not part of the given sources; every definition standing in for them is
marked `Modelled from the spec:` in its doc comment and is kept as small
as the spec's description allows.
-/

/-- A value as it flows through the Python configuration layer: `None`,
a string, a bool (argparse `type=bool` flags and non-string defaults),
or a nested mapping (YAML `context` / `fullScan` / `apiScan` blocks). -/
inductive PyValue
  | none
  | str (s : String)
  | bool (b : Bool)
  | obj (entries : List (String × PyValue))

/-- Modelled from the spec: `helpers/constants.py` is not under `src/`.
The ZAP option flags and script paths are opaque command tokens; the
concrete strings below are distinct placeholders whose exact values are
irrelevant to every claim (only their positions matter). -/
def pyCmd : String := "python3"

/-- Modelled from the spec: baseline scan script constant. -/
def baseLineScript : String := "/zap/zap-baseline.py"

/-- Modelled from the spec: full scan script constant. -/
def fullScanScript : String := "/zap/zap-full-scan.py"

/-- Modelled from the spec: api scan script constant. -/
def apiScanScript : String := "/zap/zap-api-scan.py"

/-- Modelled from the spec: target URL flag. -/
def zapTargetUrlOption : String := "-t"

/-- Modelled from the spec: rules file flag. -/
def zapRulesFileOption : String := "-c"

/-- Modelled from the spec: context file flag. -/
def zapContextFileOption : String := "-n"

/-- Modelled from the spec: debug flag. -/
def zapDebugOption : String := "-d"

/-- Modelled from the spec: ajax spider flag. -/
def zapAjaxSpiderOption : String := "-j"

/-- Modelled from the spec: minutes delay flag. -/
def zapMinutesDelayOption : String := "-m"

/-- Modelled from the spec: api format flag. -/
def zapFormatOption : String := "-f"

/-- Modelled from the spec: minimum log level flag. -/
def zapMinimumLevelOption : String := "-l"

/-- Modelled from the spec: auxiliary options flag (`ZAP_OTHER_OPTIONS`). -/
def zapOtherOptions : String := "-z"

/-- Modelled from the spec: hook script flag. -/
def zapHookOption : String := "--hook"

/-- Hook script path; this literal appears directly in
`__add_hook_option__` in `src/main.py`. -/
def hookScriptPath : String := "/zap/hooks/soos_dast_hook.py"

/-- Modelled from the spec: JSON report output flag. -/
def zapJsonReportOption : String := "-J"

/-- Modelled from the spec: fixed JSON report filename
(`REPORT_SCAN_RESULT_FILENAME`). -/
def reportScanResultFilename : String := "report.json"

/-- Scan mode key for the baseline scan.  The string values of the three
scan modes are grounded in `src/main.py` itself: the `--scanMode` help
text lists `baseline, fullscan, apiscan, and activescan` and the argparse
default is `"baseline"`. -/
def baselineConst : String := "baseline"

/-- Scan mode key for the full scan (see `baselineConst`). -/
def fullScanConst : String := "fullscan"

/-- Scan mode key for the api scan (see `baselineConst`). -/
def apiScanConst : String := "apiscan"

/-- Scan mode string for the active scan, listed by the `--scanMode`
help text in `src/main.py` but absent from `scan_mode_map`. -/
def activeScanConst : String := "activescan"

/-- Default API URL; this literal is the argparse default for `--apiURL`
in `src/main.py`. -/
def defaultApiUrl : String := "https://api.soos.io/api/"

/-- Modelled from the spec: `Constants.DEFAULT_INTEGRATION_NAME`
(opaque value). -/
def defaultIntegrationName : String := "Script"

/-- Modelled from the spec: `Constants.DEFAULT_INTEGRATION_TYPE`
(opaque value). -/
def defaultIntegrationType : String := "CI"

/-- Modelled from the spec: environment variable name for the client id
(`Constants.SOOS_CLIENT_ID_KEY`). -/
def soosClientIdKey : String := "SOOS_CLIENT_ID"

/-- Modelled from the spec: environment variable name for the API key
(`Constants.SOOS_API_KEY`). -/
def soosApiKeyEnvKey : String := "SOOS_API_KEY"

/-- The configuration state of a `SOOSDASTAnalysis` instance: one field
per attribute assigned in `SOOSDASTAnalysis.__init__`, with the same
defaults.  Fields that only ever hold a string or `None` in the claims'
scope are `Option String`; `generate_sarif_report` keeps the raw value it
is assigned (the CLI hands it a bool). -/
structure SOOSDASTAnalysis where
  clientId : Option String := Option.none
  apiKey : Option String := Option.none
  projectName : Option String := Option.none
  baseUri : Option String := Option.none
  scanMode : Option String := Option.none
  failOnError : Option String := Option.none
  targetUrl : Option String := Option.none
  rulesFile : Option String := Option.none
  contextFile : Option String := Option.none
  userContext : Option String := Option.none
  apiScanFormat : Option String := Option.none
  debugMode : Bool := false
  ajaxSpiderScan : Bool := false
  minutesDelay : Option String := Option.none
  commitHash : Option String := Option.none
  branchName : Option String := Option.none
  branchUri : Option String := Option.none
  buildVersion : Option String := Option.none
  buildUri : Option String := Option.none
  operatingEnvironment : Option String := Option.none
  logLevel : Option String := Option.none
  zapOptions : Option String := Option.none
  requestCookies : Option String := Option.none
  requestHeader : Option String := Option.none
  integrationName : Option String := some defaultIntegrationName
  integrationType : Option String := some defaultIntegrationType
  authAuto : String := "0"
  authLoginUrl : Option String := Option.none
  authUsername : Option String := some ""
  authPassword : Option String := some ""
  authUsernameFieldName : Option String := some ""
  authPasswordFieldName : Option String := some ""
  authSubmitFieldName : Option String := some ""
  authFirstSubmitFieldName : Option String := some ""
  authExcludeUrls : Option String := some ""
  authDisplay : Bool := false
  generateSarifReport : PyValue := PyValue.bool false
  githubPat : Option String := Option.none

/-- Modelled from the spec: `helpers.utils.has_value` — the optional
value is present and non-empty. -/
def hasValue : Option String → Bool
  | some s => !s.isEmpty
  | Option.none => false

/-- Python truthiness of a string-or-None value (`None` and the empty
string are falsy), used by the `if self.auth_loginUrl or ...` test in
`__generate_command__`. -/
def pyTruthy : Option String → Bool
  | some s => !s.isEmpty
  | Option.none => false

/-- Modelled from the spec: `helpers.utils.valid_required` fails fast
with a configuration error naming the missing key when the value is
absent or empty. -/
def validRequired (key : String) (v : Option String) : Except String Unit :=
  match v with
  | Option.none => Except.error (key ++ " is required")
  | some s => if s.isEmpty then Except.error (key ++ " is required") else Except.ok ()

/-- `__add_target_url_option__`: appends the target URL flag and value,
or exits (`Target url is required.`) when the target URL has no value. -/
def addTargetUrlOption (targetUrl : Option String) (args : List String) :
    Except String (List String) :=
  if hasValue targetUrl then
    Except.ok (args ++ [zapTargetUrlOption, targetUrl.getD ""])
  else Except.error "Target url is required."

/-- `__add_rules_file_option__`. -/
def addRulesFileOption (cfg : SOOSDASTAnalysis) (args : List String) : List String :=
  if hasValue cfg.rulesFile then args ++ [zapRulesFileOption, cfg.rulesFile.getD ""] else args

/-- `__add_context_file_option__`. -/
def addContextFileOption (cfg : SOOSDASTAnalysis) (args : List String) : List String :=
  if hasValue cfg.contextFile then args ++ [zapContextFileOption, cfg.contextFile.getD ""] else args

/-- `__add_debug_option__`. -/
def addDebugOption (cfg : SOOSDASTAnalysis) (args : List String) : List String :=
  if cfg.debugMode then args ++ [zapDebugOption] else args

/-- `__add_ajax_spider_scan_option__`. -/
def addAjaxSpiderScanOption (cfg : SOOSDASTAnalysis) (args : List String) : List String :=
  if cfg.ajaxSpiderScan then args ++ [zapAjaxSpiderOption] else args

/-- `__add_minutes_delay_option__`. -/
def addMinutesDelayOption (cfg : SOOSDASTAnalysis) (args : List String) : List String :=
  if hasValue cfg.minutesDelay then args ++ [zapMinutesDelayOption, cfg.minutesDelay.getD ""] else args

/-- `__add_format_option__`: appends the format flag when a format is
present; exits when absent in api scan mode. -/
def addFormatOption (cfg : SOOSDASTAnalysis) (args : List String) :
    Except String (List String) :=
  if hasValue cfg.apiScanFormat then
    Except.ok (args ++ [zapFormatOption, cfg.apiScanFormat.getD ""])
  else if cfg.scanMode == some apiScanConst then
    Except.error "Format is required for apiscan mode."
  else Except.ok args

/-- `__add_log_level_option__`: defined in the source, but never invoked
by `__generate_command__`. -/
def addLogLevelOption (cfg : SOOSDASTAnalysis) (args : List String) : List String :=
  if hasValue cfg.logLevel then args ++ [zapMinimumLevelOption, cfg.logLevel.getD ""] else args

/-- `__add_custom_option__`. -/
def addCustomOption (label value : String) : String :=
  label ++ "=\"" ++ value ++ "\""

/-- `__add_zap_options__`: the auxiliary option pairs are assembled from
login URL, request cookies and request header (each tested with
`is not None` in the source), joined with spaces after the
`ZAP_OTHER_OPTIONS` flag. -/
def addZapOptions (cfg : SOOSDASTAnalysis) (args : List String) : List String :=
  let zapOpts : List String :=
    (match cfg.authLoginUrl with
     | some s => [addCustomOption "auth.loginurl" s]
     | Option.none => []) ++
    (match cfg.requestCookies with
     | some s => [addCustomOption "request.custom_cookies" s]
     | Option.none => []) ++
    (match cfg.requestHeader with
     | some s => [addCustomOption "request.custom_header" s]
     | Option.none => [])
  args ++ [zapOtherOptions, String.intercalate " " zapOpts]

/-- The guard of the auxiliary-options block in `__generate_command__`:
`self.auth_loginUrl or self.zap_options or self.request_cookies is not
None` (Python truthiness on the first two, a pure `None` test on the
third, exactly as the operator precedence parses it). -/
def zapOptionsCondition (cfg : SOOSDASTAnalysis) : Bool :=
  pyTruthy cfg.authLoginUrl || pyTruthy cfg.zapOptions || cfg.requestCookies.isSome

/-- `__generate_command__`: appends, in source order, the debug, rules
file, context file, ajax spider and minutes delay options, then the
auxiliary zap-options block when its guard holds, then the hook option
and the report file option.  Note that `__add_format_option__` and
`__add_log_level_option__` are not called here. -/
def generateCommand (cfg : SOOSDASTAnalysis) (args : List String) : List String :=
  let args := addDebugOption cfg args
  let args := addRulesFileOption cfg args
  let args := addContextFileOption cfg args
  let args := addAjaxSpiderScanOption cfg args
  let args := addMinutesDelayOption cfg args
  let args := if zapOptionsCondition cfg then addZapOptions cfg args else args
  let args := args ++ [zapHookOption, hookScriptPath]
  args ++ [zapJsonReportOption, reportScanResultFilename]

/-- `baseline_scan`. -/
def baselineScan (cfg : SOOSDASTAnalysis) : Except String (List String) :=
  match addTargetUrlOption cfg.targetUrl [pyCmd, baseLineScript] with
  | Except.error e => Except.error e
  | Except.ok args => Except.ok (generateCommand cfg args)

/-- `full_scan`. -/
def fullScan (cfg : SOOSDASTAnalysis) : Except String (List String) :=
  match addTargetUrlOption cfg.targetUrl [pyCmd, fullScanScript] with
  | Except.error e => Except.error e
  | Except.ok args => Except.ok (generateCommand cfg args)

/-- `api_scan`: validates the api scan format first (`valid_required`),
then prepends interpreter and script, target URL, format option, and
hands over to `__generate_command__`. -/
def apiScan (cfg : SOOSDASTAnalysis) : Except String (List String) :=
  match validRequired "api_scan_format" cfg.apiScanFormat with
  | Except.error e => Except.error e
  | Except.ok _ =>
    match addTargetUrlOption cfg.targetUrl [pyCmd, apiScanScript] with
    | Except.error e => Except.error e
    | Except.ok args =>
      match addFormatOption cfg args with
      | Except.error e => Except.error e
      | Except.ok args => Except.ok (generateCommand cfg args)

/-- `scan_mode_map` from `SOOSDASTAnalysis.__init__`: a string-keyed
table holding exactly the baseline, full and api scan builders. -/
def scanModeMap : List (String × (SOOSDASTAnalysis → Except String (List String))) :=
  [(baselineConst, baselineScan), (fullScanConst, fullScan), (apiScanConst, apiScan)]

/-- `self.scan_mode_map.get(self.scan_mode, None)` in `run_analysis`. -/
def scanModeDispatch (scanMode : Option String) :
    Option (SOOSDASTAnalysis → Except String (List String)) :=
  match scanMode with
  | some s => (scanModeMap.find? (fun p => p.1 == s)).map (fun p => p.2)
  | Option.none => Option.none

/-- `" ".join(args)` — the final command string returned by
`__generate_command__` (claims reason about the token list). -/
def generateCommandString (cfg : SOOSDASTAnalysis) (args : List String) : String :=
  String.intercalate " " (generateCommand cfg args)

/-! ## The remote HTTP layer

Each HTTP attempt is resolved by an oracle from the attempt index to its
outcome: a response with an `ok` flag and an optional `message` field in
its JSON body, or a raised exception. -/

/-- Outcome of one HTTP request: a response whose `ok` flag and JSON
body `message` field are recorded, or an exception raised by the
request call. -/
inductive HttpAttempt
  | resp (ok : Bool) (jsonMessage : Option String)
  | raise (e : String)

/-- Outcome of a bounded retry loop: success after `callsMade` requests,
exhaustion after `callsMade` requests carrying the last error response's
`message` field (when an error response exists), or an exception after
`callsMade` requests. -/
inductive LoopOutcome
  | success (callsMade : Nat)
  | exhausted (callsMade : Nat) (lastError : Option (Option String))
  | raised (callsMade : Nat) (e : String)
deriving DecidableEq

/-- The `for attempt in range(0, Constants.MAX_RETRY_COUNT)` retry loop
shared (textually) by `__make_soos_start_analysis_request__` and
`__make_soos_scan_status_request__`: a successful response returns
immediately, a failed response is remembered as `error_response` and the
loop continues, a raised exception aborts the loop. -/
def forRetryLoop (oracle : Nat → HttpAttempt) :
    Nat → Nat → Option (Option String) → LoopOutcome
  | 0, idx, lastError => LoopOutcome.exhausted idx lastError
  | rem + 1, idx, _lastError =>
    match oracle idx with
    | HttpAttempt.raise e => LoopOutcome.raised (idx + 1) e
    | HttpAttempt.resp true _ => LoopOutcome.success (idx + 1)
    | HttpAttempt.resp false m => forRetryLoop oracle rem (idx + 1) (some m)

/-- The `while attempt <= Constants.MAX_RETRY_COUNT` loop of
`__make_upload_dast_results_request__`, compiled with the fuel
`n + 1 - attempt` so that recursion is structural: `attempt` starts at 1
and each failed response increments it. -/
def whileRetryLoopAux (oracle : Nat → HttpAttempt) :
    Nat → Nat → Option (Option String) → LoopOutcome
  | 0, attempt, lastError => LoopOutcome.exhausted (attempt - 1) lastError
  | fuel + 1, attempt, _lastError =>
    match oracle (attempt - 1) with
    | HttpAttempt.raise e => LoopOutcome.raised attempt e
    | HttpAttempt.resp true _ => LoopOutcome.success attempt
    | HttpAttempt.resp false m => whileRetryLoopAux oracle fuel (attempt + 1) (some m)

/-- The upload retry loop entered with `attempt = 1` and the bound `n`
(`Constants.MAX_RETRY_COUNT`). -/
def whileRetryLoop (oracle : Nat → HttpAttempt) (n : Nat) : LoopOutcome :=
  whileRetryLoopAux oracle n 1 Option.none

/-- The `message` local initialised at the top of
`__make_soos_start_analysis_request__` and of
`__make_soos_scan_status_request__` (both use this same literal). -/
def startAnalysisGenericMessage : String := "An error has occurred Starting the Analysis"

/-- Result of `__make_soos_start_analysis_request__`: a
`DASTStartAnalysisResponse` after `callsMade` requests, the bare
`sys.exit(1)` taken when `projectName`/`scanMode` are missing, or
termination through `exit_app(message)`. -/
inductive StartResult
  | ok (callsMade : Nat)
  | sysExit1
  | exitApp (msg : String)
deriving DecidableEq

/-- Python `value is None or len(value) == 0` on an optional string. -/
def optEmpty : Option String → Bool
  | Option.none => true
  | some s => s.isEmpty

/-- `__make_soos_start_analysis_request__`.  After the retry loop is
exhausted the source checks `attempt > Constants.MAX_RETRY_COUNT` before
extracting `message` from the last error body; since the loop variable
ends at `n - 1` (or `0` when the loop never ran) that check is never
true, and the branch is kept here exactly as written.  An exception
leaves `message` at its generic initial value.  All failure paths end in
`exit_app(message)`. -/
def makeStartAnalysisRequest (projectName scanMode : Option String)
    (oracle : Nat → HttpAttempt) (n : Nat) : StartResult :=
  if optEmpty projectName || optEmpty scanMode then StartResult.sysExit1
  else
    match forRetryLoop oracle n 0 Option.none with
    | LoopOutcome.success k => StartResult.ok k
    | LoopOutcome.exhausted _ lastError =>
      let attempt := if n = 0 then 0 else n - 1
      let message :=
        if attempt > n then
          match lastError with
          | some (some m) => m
          | _ => startAnalysisGenericMessage
        else startAnalysisGenericMessage
      StartResult.exitApp message
    | LoopOutcome.raised _ _ => StartResult.exitApp startAnalysisGenericMessage

/-- Result of `__make_soos_scan_status_request__`: `ok` is the `return
True` of a successful attempt, `exitApp` is termination through
`exit_app`, and `outOfFuel` is a modelling artifact marking recursion
deeper than the given fuel (the source recursion is unbounded when every
request raises). -/
inductive StatusResult
  | ok
  | exitApp (msg : String)
  | outOfFuel
deriving DecidableEq

/-- `__make_soos_scan_status_request__`.  `oracles d a` resolves attempt
`a` of the invocation at recursion depth `d`.  The returned list records
every set-status invocation performed, outermost first, as
`(status, status_message)` pairs.  On a successful attempt the function
returns `True`; when the retry loop is exhausted the same dead
`attempt > MAX_RETRY_COUNT` extraction as in the start request is
skipped and `exit_app` receives the generic message — with no recursive
call; when an attempt raises, the handler re-invokes the function with
`status="Error"` carrying `message` (the generic text, since `message`
is never `None`), then falls through to `exit_app(message)` if that
recursive call returned. -/
def makeScanStatusRequest (oracles : Nat → Nat → HttpAttempt) (n : Nat) :
    Nat → Nat → String → Option String → StatusResult × List (String × Option String)
  | 0, _depth, status, statusMessage => (StatusResult.outOfFuel, [(status, statusMessage)])
  | fuel + 1, depth, status, statusMessage =>
    match forRetryLoop (oracles depth) n 0 Option.none with
    | LoopOutcome.success _ => (StatusResult.ok, [(status, statusMessage)])
    | LoopOutcome.exhausted _ lastError =>
      let attempt := if n = 0 then 0 else n - 1
      let message :=
        if attempt > n then
          match lastError with
          | some (some m) => m
          | _ => startAnalysisGenericMessage
        else startAnalysisGenericMessage
      (StatusResult.exitApp message, [(status, statusMessage)])
    | LoopOutcome.raised _ _ =>
      let message := startAnalysisGenericMessage
      let inner :=
        makeScanStatusRequest oracles n fuel (depth + 1) "Error" (some message)
      match inner.1 with
      | StatusResult.ok => (StatusResult.exitApp message, (status, statusMessage) :: inner.2)
      | r => (r, (status, statusMessage) :: inner.2)

/-- Result of `__make_upload_dast_results_request__`: `ok` is the
`return True` of a successful attempt; `exited` means the function
reported status `Error` and terminated through
`exit_app(error_message)`; `outOfFuel` propagates the set-status
modelling artifact. -/
inductive UploadResult
  | ok (callsMade : Nat)
  | exited (msg : Option String)
  | outOfFuel
deriving DecidableEq

/-- `__make_upload_dast_results_request__`.  `parse` is the outcome of
reading and JSON-parsing the report file (an exception there is caught
and logged, leaving `error_message = None`).  After exhaustion the
`attempt > MAX_RETRY_COUNT` check is live here (`attempt` ends at
`n + 1`), so the last error body's `message` is extracted when present
(a missing field raises a caught `KeyError`, leaving `error_message =
None`).  All failure paths call set-status with `Error` and the
extracted `error_message`, then `exit_app(error_message)`; the returned
list records the set-status invocations performed. -/
def makeUploadDastResultsRequest (parse : Except String Unit)
    (oracle : Nat → HttpAttempt) (statusOracles : Nat → Nat → HttpAttempt)
    (n fuel : Nat) : UploadResult × List (String × Option String) :=
  let failWith := fun (errorMessage : Option String) =>
    let st := makeScanStatusRequest statusOracles n fuel 0 "Error" errorMessage
    match st.1 with
    | StatusResult.ok => (UploadResult.exited errorMessage, st.2)
    | StatusResult.exitApp m => (UploadResult.exited (some m), st.2)
    | StatusResult.outOfFuel => (UploadResult.outOfFuel, st.2)
  match parse with
  | Except.error _ => failWith Option.none
  | Except.ok _ =>
    match whileRetryLoop oracle n with
    | LoopOutcome.success k => (UploadResult.ok k, [])
    | LoopOutcome.exhausted _ lastError =>
      match lastError with
      | some (some m) => failWith (some m)
      | _ => failWith Option.none
    | LoopOutcome.raised _ _ => failWith Option.none

/-! ## Configuration parsing

`parse_args` builds an argparse namespace (every flag present, defaults
filled in) and `parse_configuration` walks its items through one long
`elif` chain.  String concatenation with a non-string raises a
`TypeError`, exactly as in Python. -/

/-- The `TypeError` raised by `"GITHUB PAT: " + self.github_pat` when
`github_pat` is not a string. -/
def pyTypeErrorMessage : String := "TypeError: can only concatenate str to str"

/-- A Python value narrowed to the string-or-None shape stored in the
analysis fields; non-string, non-None values never reach these fields in
the configurations the claims range over. -/
def asOptStr : PyValue → Option String
  | PyValue.str s => some s
  | _ => Option.none

/-- Modelled from the spec: `helpers.utils.unescape_string` resolves
literal escape sequences in the project name.  No claim observes the
resolution itself, so it is the identity on escape-free strings. -/
def unescapeString (s : String) : String := s

/-- `valid_required` applied to a raw configuration value: absent or
empty-string values fail; any other present value passes. -/
def validRequiredV (key : String) (v : PyValue) : Except String Unit :=
  match v with
  | PyValue.none => Except.error (key ++ " is required")
  | PyValue.str s =>
    if s.isEmpty then Except.error (key ++ " is required") else Except.ok ()
  | _ => Except.ok ()

/-- Python subscription `value[k]`: a `KeyError` for a missing key, a
`TypeError` for a non-mapping value. -/
def pyIndex (v : PyValue) (k : String) : Except String PyValue :=
  match v with
  | PyValue.obj entries =>
    match entries.find? (fun p => p.1 == k) with
    | some p => Except.ok p.2
    | Option.none => Except.error ("KeyError: " ++ k)
  | _ => Except.error "TypeError: value is not subscriptable"

/-- One iteration of the `elif` chain in
`SOOSDASTAnalysis.parse_configuration`, updating the analysis state for
one `(key, value)` item.  Branch order and effects follow the source:
`debug`, `ajaxSpider`, `authAuto` and `authDisplay` react to key presence
alone; `clientId`/`apiKey` fall back to the environment when the value is
`None`; `gpat` stores the value and then logs `"GITHUB PAT: " + value`,
which raises a `TypeError` whenever the value is not a string (the CLI
default for `--gpat` is the bool `False`).  Unknown keys are ignored. -/
def processKey (env : String → Option String) (c : SOOSDASTAnalysis)
    (key : String) (v : PyValue) : Except String SOOSDASTAnalysis :=
  if key = "clientId" then
    match v with
    | PyValue.none =>
      match env soosClientIdKey with
      | some s =>
        if s.isEmpty then Except.error "clientId is required"
        else Except.ok { c with clientId := some s }
      | Option.none => Except.error "clientId is required"
    | _ =>
      match validRequiredV "clientId" v with
      | Except.error e => Except.error e
      | Except.ok _ => Except.ok { c with clientId := asOptStr v }
  else if key = "apiKey" then
    match v with
    | PyValue.none =>
      match env soosApiKeyEnvKey with
      | some s =>
        if s.isEmpty then Except.error "apiKey is required"
        else Except.ok { c with apiKey := some s }
      | Option.none => Except.error "apiKey is required"
    | _ =>
      match validRequiredV "apiKey" v with
      | Except.error e => Except.error e
      | Except.ok _ => Except.ok { c with apiKey := asOptStr v }
  else if key = "apiURL" then
    match v with
    | PyValue.none => Except.ok { c with baseUri := some defaultApiUrl }
    | _ => Except.ok { c with baseUri := asOptStr v }
  else if key = "projectName" then
    match validRequiredV "projectName" v with
    | Except.error e => Except.error e
    | Except.ok _ => Except.ok { c with projectName := (asOptStr v).map unescapeString }
  else if key = "scanMode" then
    match validRequiredV "scanMode" v with
    | Except.error e => Except.error e
    | Except.ok _ => Except.ok { c with scanMode := asOptStr v }
  else if key = "failOnError" then
    match validRequiredV "failOnError" v with
    | Except.error e => Except.error e
    | Except.ok _ => Except.ok { c with failOnError := asOptStr v }
  else if key = "rules" then Except.ok { c with rulesFile := asOptStr v }
  else if key = "debug" then Except.ok { c with debugMode := true }
  else if key = "ajaxSpider" then Except.ok { c with ajaxSpiderScan := true }
  else if key = "context" then
    match pyIndex v "file" with
    | Except.error e => Except.error e
    | Except.ok f =>
      match pyIndex v "user" with
      | Except.error e => Except.error e
      | Except.ok u => Except.ok { c with contextFile := asOptStr f, userContext := asOptStr u }
  else if key = "contextFile" then Except.ok { c with contextFile := asOptStr v }
  else if key = "contextUser" then Except.ok { c with userContext := asOptStr v }
  else if key = "fullScan" then
    match pyIndex v "minutes" with
    | Except.error e => Except.error e
    | Except.ok m => Except.ok { c with minutesDelay := asOptStr m }
  else if key = "fullScanMinutes" then Except.ok { c with minutesDelay := asOptStr v }
  else if key = "apiScan" then
    match pyIndex v "format" with
    | Except.error e => Except.error e
    | Except.ok f => Except.ok { c with apiScanFormat := asOptStr f }
  else if key = "apiScanFormat" then Except.ok { c with apiScanFormat := asOptStr v }
  else if key = "commitHash" then Except.ok { c with commitHash := asOptStr v }
  else if key = "branchName" then Except.ok { c with branchName := asOptStr v }
  else if key = "buildVersion" then Except.ok { c with buildVersion := asOptStr v }
  else if key = "branchURI" then Except.ok { c with branchUri := asOptStr v }
  else if key = "buildURI" then Except.ok { c with buildUri := asOptStr v }
  else if key = "operatingEnvironment" then Except.ok { c with operatingEnvironment := asOptStr v }
  else if key = "integrationName" then Except.ok { c with integrationName := asOptStr v }
  else if key = "integrationType" then Except.ok { c with integrationType := asOptStr v }
  else if key = "authAuto" then Except.ok { c with authAuto := "1" }
  else if key = "authDisplay" then Except.ok { c with authDisplay := true }
  else if key = "authUsername" then Except.ok { c with authUsername := asOptStr v }
  else if key = "authPassword" then Except.ok { c with authPassword := asOptStr v }
  else if key = "authLoginURL" then Except.ok { c with authLoginUrl := asOptStr v }
  else if key = "authUsernameField" then Except.ok { c with authUsernameFieldName := asOptStr v }
  else if key = "authPasswordField" then Except.ok { c with authPasswordFieldName := asOptStr v }
  else if key = "authSubmitField" then Except.ok { c with authSubmitFieldName := asOptStr v }
  else if key = "authFirstSubmitField" then Except.ok { c with authFirstSubmitFieldName := asOptStr v }
  else if key = "level" then Except.ok { c with logLevel := asOptStr v }
  else if key = "zapOptions" then Except.ok { c with zapOptions := asOptStr v }
  else if key = "requestCookies" then Except.ok { c with requestCookies := asOptStr v }
  else if key = "requestHeader" then Except.ok { c with requestHeader := asOptStr v }
  else if key = "sarif" then Except.ok { c with generateSarifReport := v }
  else if key = "gpat" then
    match v with
    | PyValue.str s => Except.ok { c with githubPat := some s }
    | _ => Except.error pyTypeErrorMessage
  else Except.ok c

/-- Sequential processing of the configuration items (the `for key,
value in configuration.items()` loop); an error terminates the run. -/
def processItems (env : String → Option String) :
    SOOSDASTAnalysis → List (String × PyValue) → Except String SOOSDASTAnalysis
  | c, [] => Except.ok c
  | c, (k, v) :: rest =>
    match processKey env c k v with
    | Except.error e => Except.error e
    | Except.ok c' => processItems env c' rest

/-- `SOOSDASTAnalysis.parse_configuration`: validates the target URL,
stores it, then processes every configuration item in order. -/
def parseConfiguration (env : String → Option String)
    (configuration : List (String × PyValue)) (targetUrl : String) :
    Except String SOOSDASTAnalysis :=
  match validRequired "Target URL" (some targetUrl) with
  | Except.error e => Except.error e
  | Except.ok _ =>
    processItems env { targetUrl := some targetUrl } configuration

/-- `lookupOr ov k d`: the parsed value of flag `k` — the explicitly
provided value when present, the argparse default otherwise. -/
def lookupOr (ov : List (String × PyValue)) (k : String) (d : PyValue) : PyValue :=
  match ov.find? (fun p => p.1 == k) with
  | some p => p.2
  | Option.none => d

/-- The argparse namespace items that precede `gpat`, in the insertion
order of `parser.add_argument` calls in `parse_args`; each key carries
its provided value or the declared default (`scanMode` defaults to
`"baseline"`, `apiURL` to the production endpoint, `debug` and `sarif`
to the bool `False`, everything else to `None`). -/
def cliNamespaceInit (targetURL : String) (ov : List (String × PyValue)) :
    List (String × PyValue) :=
  [("targetURL", PyValue.str targetURL),
   ("configFile", lookupOr ov "configFile" PyValue.none),
   ("clientId", lookupOr ov "clientId" PyValue.none),
   ("apiKey", lookupOr ov "apiKey" PyValue.none),
   ("projectName", lookupOr ov "projectName" PyValue.none),
   ("scanMode", lookupOr ov "scanMode" (PyValue.str "baseline")),
   ("apiURL", lookupOr ov "apiURL" (PyValue.str defaultApiUrl)),
   ("debug", lookupOr ov "debug" (PyValue.bool false)),
   ("ajaxSpider", lookupOr ov "ajaxSpider" PyValue.none),
   ("rules", lookupOr ov "rules" PyValue.none),
   ("contextFile", lookupOr ov "contextFile" PyValue.none),
   ("contextUser", lookupOr ov "contextUser" PyValue.none),
   ("fullScanMinutes", lookupOr ov "fullScanMinutes" PyValue.none),
   ("apiScanFormat", lookupOr ov "apiScanFormat" PyValue.none),
   ("level", lookupOr ov "level" PyValue.none),
   ("integrationName", lookupOr ov "integrationName" PyValue.none),
   ("authDisplay", lookupOr ov "authDisplay" PyValue.none),
   ("authUsername", lookupOr ov "authUsername" PyValue.none),
   ("authPassword", lookupOr ov "authPassword" PyValue.none),
   ("authLoginURL", lookupOr ov "authLoginURL" PyValue.none),
   ("authUsernameField", lookupOr ov "authUsernameField" PyValue.none),
   ("authPasswordField", lookupOr ov "authPasswordField" PyValue.none),
   ("authSubmitField", lookupOr ov "authSubmitField" PyValue.none),
   ("authFirstSubmitField", lookupOr ov "authFirstSubmitField" PyValue.none),
   ("zapOptions", lookupOr ov "zapOptions" PyValue.none),
   ("requestCookies", lookupOr ov "requestCookies" PyValue.none),
   ("requestHeader", lookupOr ov "requestHeader" PyValue.none),
   ("commitHash", lookupOr ov "commitHash" PyValue.none),
   ("branchName", lookupOr ov "branchName" PyValue.none),
   ("branchURI", lookupOr ov "branchURI" PyValue.none),
   ("buildVersion", lookupOr ov "buildVersion" PyValue.none),
   ("buildURI", lookupOr ov "buildURI" PyValue.none),
   ("operatingEnvironment", lookupOr ov "operatingEnvironment" PyValue.none),
   ("sarif", lookupOr ov "sarif" (PyValue.bool false))]

/-- The full argparse namespace: `gpat` is the last flag added, with
`type=str` but the non-string default `False` — argparse applies the
type converter only to provided values, so an invocation without
`--gpat` parses to the bool `False`. -/
def cliNamespace (targetURL : String) (ov : List (String × PyValue)) :
    List (String × PyValue) :=
  cliNamespaceInit targetURL ov ++ [("gpat", lookupOr ov "gpat" (PyValue.bool false))]

/-- `SOOSDASTAnalysis.parse_args`: with a config file the YAML `config`
block replaces the CLI namespace entirely; otherwise `vars(args)` is
parsed. -/
def parseArgs (env : String → Option String) (targetURL : String)
    (ov : List (String × PyValue))
    (configFile : Option (List (String × PyValue))) : Except String SOOSDASTAnalysis :=
  match configFile with
  | some yamlConfig => parseConfiguration env yamlConfig targetURL
  | Option.none => parseConfiguration env (cliNamespace targetURL ov) targetURL

/-! ## SARIF publication (`SOOSSARIFReport`) -/

/-- `SOOSSARIFReport.API_RETRY_COUNT` (a literal in `src/main.py`). -/
def sarifApiRetryCount : Nat := 3

/-- Outcome of one SARIF fetch attempt as classified by
`handle_response` (modelled from the spec: the generic response handler
distinguishes a normal payload from an error payload carrying a status
code and message): an error payload, a good payload, or a raised
exception. -/
inductive SarifFetchAttempt
  | errorResponse (code : Nat) (message : String)
  | ok
  | raise (e : String)

/-- Result of the SARIF fetch retry loop. -/
inductive SarifFetchOutcome
  | found
  | exhausted
  | raised (e : String)

/-- The `for attempt in range(0, API_RETRY_COUNT)` fetch loop in
`SOOSSARIFReport.exec`: an error payload is logged and the loop
continues; a good payload breaks out. -/
def sarifFetchLoop (f : Nat → SarifFetchAttempt) :
    Nat → Nat → SarifFetchOutcome
  | 0, _ => SarifFetchOutcome.exhausted
  | rem + 1, idx =>
    match f idx with
    | SarifFetchAttempt.raise e => SarifFetchOutcome.raised e
    | SarifFetchAttempt.ok => SarifFetchOutcome.found
    | SarifFetchAttempt.errorResponse _ _ => sarifFetchLoop f rem (idx + 1)

/-- Modelled from the spec: on exhaustion of the SARIF fetch retries the
publication is aborted (`raise_max_retry_exception` /
`sarif_json_response is None` both fold into an exception inside the
`try` block). -/
def sarifMaxRetryMessage : String := "An Error has occurred generating SARIF Response"

/-- The `errors_dict` table of `SOOSSARIFReport` (its literals are in
`src/main.py`); lookup of any other status raises a `KeyError`. -/
def errorsDict (status : Nat) : Option String :=
  if status = 400 then some "Github: The sarif report is invalid"
  else if status = 403 then
    some "Github: The repository is archived or if github advanced security is not enabled for this repository"
  else if status = 404 then some "Github: Resource not found"
  else if status = 413 then some "Github: The sarif report is too large"
  else if status = 503 then some "Github: Service Unavailable"
  else Option.none

/-- `SOOSSARIFReport.handle_github_sarif_error`: prefers the response
body's own `message` (its lookup may raise a `KeyError`, which
propagates), falls back to `errors_dict[status]` (whose lookup may also
raise), and returns the logged `ERROR: ...` line.  The final
`if error_message is None` fallback in the source is unreachable —
every non-raising path above yields a string — and is therefore not
representable as a reachable branch here. -/
def handleGithubSarifError (status : Nat)
    (messageField : Except String (Option String)) : Except String String :=
  match messageField with
  | Except.error e => Except.error e
  | Except.ok m =>
    match m with
    | some s => Except.ok ("ERROR: " ++ s)
    | Option.none =>
      match errorsDict status with
      | some s => Except.ok ("ERROR: " ++ s)
      | Option.none => Except.error "KeyError: errors_dict"

/-- The external interactions of one `SOOSSARIFReport.exec` run:
the fetch attempts against the analysis service, the GitHub POST status
and body `message` lookup, the `["url"]` lookup on its body, the
follow-up GET status and body `message` lookup, and the
`["processing_status"]` lookup. -/
structure SarifWorld where
  fetchAttempts : Nat → SarifFetchAttempt
  githubPostStatus : Nat
  githubPostMessageField : Except String (Option String)
  githubUrlField : Except String Unit
  githubGetStatus : Nat
  githubGetMessageField : Except String (Option String)
  processingStatusField : Except String String

/-- The body of the `try` block of `SOOSSARIFReport.exec`: fetch with
retry, then POST to GitHub, classifying every non-success status through
`handle_github_sarif_error`, then one follow-up GET for the processing
status.  The returned strings are the log lines of the successful exit
paths; any raised exception is the `Except.error`. -/
def sarifExecInner (w : SarifWorld) : Except String (List String) :=
  match sarifFetchLoop w.fetchAttempts sarifApiRetryCount 0 with
  | SarifFetchOutcome.raised e => Except.error e
  | SarifFetchOutcome.exhausted => Except.error sarifMaxRetryMessage
  | SarifFetchOutcome.found =>
    if w.githubPostStatus ≥ 400 then
      match handleGithubSarifError w.githubPostStatus w.githubPostMessageField with
      | Except.error e => Except.error e
      | Except.ok line => Except.ok [line]
    else
      match w.githubUrlField with
      | Except.error e => Except.error e
      | Except.ok _ =>
        if w.githubGetStatus ≥ 400 then
          match handleGithubSarifError w.githubGetStatus w.githubGetMessageField with
          | Except.error e => Except.error e
          | Except.ok line => Except.ok [line]
        else
          match w.processingStatusField with
          | Except.error e => Except.error e
          | Except.ok ps =>
            Except.ok ["SARIF Report uploaded to GitHub", "Processing Status: " ++ ps]

/-- `SOOSSARIFReport.exec`: the whole body is wrapped in
`try ... except Exception: log(...)`, so the function always returns —
a caught exception becomes one logged `ERROR:` line. -/
def sarifReportExec (w : SarifWorld) : List String :=
  match sarifExecInner w with
  | Except.ok logLines => logLines
  | Except.error e => ["ERROR: " ++ e]

/-! ## The orchestrator (`run_analysis`) -/

/-- An observable step of a run: the start-analysis POST, a set-status
PATCH carrying `(status, message)`, the results upload PUT, or the SARIF
publication step (carrying its log lines — it performs no call against
the analysis service's status resource). -/
inductive RunEvent
  | startCall
  | statusCall (status : String) (message : Option String)
  | uploadCall
  | sarifStep (logLines : List String)
deriving DecidableEq

/-- Final observable outcome of `run_analysis`: `sys.exit(0)`, process
termination with exit code 1 (through `exit_app` — modelled from the
spec: exit code 1 on any fatal error — or the bare `sys.exit(1)`),
or the out-of-fuel modelling artifact of the set-status recursion. -/
inductive RunOutcome
  | exit0
  | exit1 (msg : Option String)
  | stuck
deriving DecidableEq

/-- The environment a whole run executes against.  `statusOracle i d a`
resolves attempt `a` at recursion depth `d` of set-status invocation
site `i` (0 = the `Running` report, 1 = the `Error` report of the
scan-failure or upload-failure path, 2 = the `Finished` report).
`scanExitCode` is the value `os.system` returns; the source discards
it.  `fuel` bounds the set-status self-recursion in the model. -/
structure RunWorld where
  targetAvailable : Bool
  startOracle : Nat → HttpAttempt
  statusOracle : Nat → Nat → Nat → HttpAttempt
  uploadOracle : Nat → HttpAttempt
  reportFileExists : Bool
  reportParse : Except String Unit
  scanExitCode : Int
  sarif : SarifWorld
  maxRetry : Nat
  fuel : Nat

/-- Renders `self.scan_mode` into an f-string the way Python does
(`None` prints as `None`). -/
def showOptStr : Option String → String
  | some s => s
  | Option.none => "None"

/-- Maps a list of set-status invocations to run events. -/
def mapStatusTrace (t : List (String × Option String)) : List RunEvent :=
  t.map (fun p => RunEvent.statusCall p.1 p.2)

/-- `SOOSDASTAnalysis.run_analysis`, given the outcome of
`parse_args` and the run environment.  Faithful to the source order:
availability check, start-analysis request, scan-mode dispatch, command
build, `Running` status, `os.system` (return value discarded), report
file check — on absence an `Error` status then a raised exception that
the structurally enclosing `except` turns into `exit_app` —, results
upload (which itself reports `Error` and exits on failure),
unconditional SARIF publication, `Finished` status, `sys.exit(0)`.
The returned list is the trace of observable steps. -/
def runAnalysis (parseResult : Except String SOOSDASTAnalysis) (w : RunWorld) :
    RunOutcome × List RunEvent :=
  match parseResult with
  | Except.error e => (RunOutcome.exit1 (some e), [])
  | Except.ok cfg =>
    if w.targetAvailable = false then
      (RunOutcome.exit1 (some ("The URL " ++ showOptStr cfg.targetUrl ++ " is not available")), [])
    else
      match makeStartAnalysisRequest cfg.projectName cfg.scanMode w.startOracle w.maxRetry with
      | StartResult.sysExit1 => (RunOutcome.exit1 Option.none, [RunEvent.startCall])
      | StartResult.exitApp m => (RunOutcome.exit1 (some m), [RunEvent.startCall])
      | StartResult.ok _ =>
        match scanModeDispatch cfg.scanMode with
        | Option.none =>
          (RunOutcome.exit1 (some ("The scan mode " ++ showOptStr cfg.scanMode ++ " is invalid.")),
           [RunEvent.startCall])
        | some scanFunction =>
          match scanFunction cfg with
          | Except.error m => (RunOutcome.exit1 (some m), [RunEvent.startCall])
          | Except.ok _command =>
            let running := makeScanStatusRequest (w.statusOracle 0) w.maxRetry w.fuel 0 "Running" Option.none
            let ev1 := RunEvent.startCall :: mapStatusTrace running.2
            match running.1 with
            | StatusResult.outOfFuel => (RunOutcome.stuck, ev1)
            | StatusResult.exitApp m => (RunOutcome.exit1 (some m), ev1)
            | StatusResult.ok =>
              let _discardedExitCode := w.scanExitCode
              if w.reportFileExists = false then
                let msg := "An Unexpected error has occurred running the " ++
                  showOptStr cfg.scanMode ++ " scan"
                let errStatus := makeScanStatusRequest (w.statusOracle 1) w.maxRetry w.fuel 0 "Error" (some msg)
                let ev2 := ev1 ++ mapStatusTrace errStatus.2
                match errStatus.1 with
                | StatusResult.outOfFuel => (RunOutcome.stuck, ev2)
                | StatusResult.exitApp m => (RunOutcome.exit1 (some m), ev2)
                | StatusResult.ok => (RunOutcome.exit1 (some msg), ev2)
              else
                let upload := makeUploadDastResultsRequest w.reportParse w.uploadOracle
                  (w.statusOracle 1) w.maxRetry w.fuel
                match upload.1 with
                | UploadResult.outOfFuel =>
                  (RunOutcome.stuck, ev1 ++ RunEvent.uploadCall :: mapStatusTrace upload.2)
                | UploadResult.exited m =>
                  (RunOutcome.exit1 m, ev1 ++ RunEvent.uploadCall :: mapStatusTrace upload.2)
                | UploadResult.ok _ =>
                  let sarifLogLines := sarifReportExec w.sarif
                  let ev2 := ev1 ++ [RunEvent.uploadCall, RunEvent.sarifStep sarifLogLines]
                  let finished := makeScanStatusRequest (w.statusOracle 2) w.maxRetry w.fuel 0 "Finished" Option.none
                  let ev3 := ev2 ++ mapStatusTrace finished.2
                  match finished.1 with
                  | StatusResult.outOfFuel => (RunOutcome.stuck, ev3)
                  | StatusResult.exitApp m => (RunOutcome.exit1 (some m), ev3)
                  | StatusResult.ok => (RunOutcome.exit0, ev3)

/-! ## Concrete command blocks and concrete inputs used by the theorems -/

/-- The debug block of the generated command. -/
def debugBlock (cfg : SOOSDASTAnalysis) : List String :=
  if cfg.debugMode then [zapDebugOption] else []

/-- The rules-file block of the generated command. -/
def rulesBlock (cfg : SOOSDASTAnalysis) : List String :=
  if hasValue cfg.rulesFile then [zapRulesFileOption, cfg.rulesFile.getD ""] else []

/-- The context-file block of the generated command. -/
def contextBlock (cfg : SOOSDASTAnalysis) : List String :=
  if hasValue cfg.contextFile then [zapContextFileOption, cfg.contextFile.getD ""] else []

/-- The ajax-spider block of the generated command. -/
def ajaxBlock (cfg : SOOSDASTAnalysis) : List String :=
  if cfg.ajaxSpiderScan then [zapAjaxSpiderOption] else []

/-- The minutes-delay block of the generated command. -/
def minutesBlock (cfg : SOOSDASTAnalysis) : List String :=
  if hasValue cfg.minutesDelay then [zapMinutesDelayOption, cfg.minutesDelay.getD ""] else []

/-- The `key="value"` pairs assembled by `__add_zap_options__`. -/
def zapOptsList (cfg : SOOSDASTAnalysis) : List String :=
  (match cfg.authLoginUrl with
   | some s => [addCustomOption "auth.loginurl" s]
   | Option.none => []) ++
  (match cfg.requestCookies with
   | some s => [addCustomOption "request.custom_cookies" s]
   | Option.none => []) ++
  (match cfg.requestHeader with
   | some s => [addCustomOption "request.custom_header" s]
   | Option.none => [])

/-- The auxiliary zap-options block of the generated command (emitted
only when its guard holds). -/
def zapOptionsBlock (cfg : SOOSDASTAnalysis) : List String :=
  if zapOptionsCondition cfg then
    [zapOtherOptions, String.intercalate " " (zapOptsList cfg)]
  else []

/-- The fixed tail every generated command ends with: the conditional
blocks in the order `__generate_command__` emits them, then the hook
option and the JSON report option. -/
def commandTail (cfg : SOOSDASTAnalysis) : List String :=
  debugBlock cfg ++ rulesBlock cfg ++ contextBlock cfg ++ ajaxBlock cfg ++
    minutesBlock cfg ++ zapOptionsBlock cfg ++
    [zapHookOption, hookScriptPath] ++ [zapJsonReportOption, reportScanResultFilename]

/-- Oracle for the C4 witness: every attempt fails with an error body. -/
def c4FailOracle : Nat → HttpAttempt :=
  fun _ => HttpAttempt.resp false (some "server busy")

/-- Oracle for the C4 witness: attempt 0 fails, attempt 1 succeeds. -/
def c4OkAtOneOracle : Nat → HttpAttempt :=
  fun j => if j = 1 then HttpAttempt.resp true Option.none
           else HttpAttempt.resp false Option.none

/-- Oracles for the C2 counterexample: every attempt of every set-status
invocation returns a non-success response (no exception is raised). -/
def c2ExhaustOracles : Nat → Nat → HttpAttempt :=
  fun _ _ => HttpAttempt.resp false Option.none

/-- Oracles for the C2 witness: depth 0 raises, depth 1 always fails
without raising. -/
def c2RaiseOracles : Nat → Nat → HttpAttempt :=
  fun d _ => if d = 0 then HttpAttempt.raise "connection reset"
             else HttpAttempt.resp false Option.none

/-- A SARIF environment in which every step succeeds (used by concrete
run environments whose runs never reach or never exercise the SARIF
step). -/
def benignSarifWorld : SarifWorld where
  fetchAttempts := fun _ => SarifFetchAttempt.ok
  githubPostStatus := 201
  githubPostMessageField := Except.ok Option.none
  githubUrlField := Except.ok ()
  githubGetStatus := 200
  githubGetMessageField := Except.ok Option.none
  processingStatusField := Except.ok "complete"

/-- Configuration for the C3 failing input: valid project, baseline
mode, reachable target. -/
def c3Analysis : SOOSDASTAnalysis :=
  { projectName := some "proj", scanMode := some "baseline",
    targetUrl := some "http://target" }

/-- Run environment for the C3 failing input: the start-analysis
endpoint answers every one of the 3 attempts with a non-success
response whose body is `{"message":"server down"}`. -/
def c3World : RunWorld where
  targetAvailable := true
  startOracle := fun _ => HttpAttempt.resp false (some "server down")
  statusOracle := fun _ _ _ => HttpAttempt.resp true Option.none
  uploadOracle := fun _ => HttpAttempt.resp true Option.none
  reportFileExists := true
  reportParse := Except.ok ()
  scanExitCode := 0
  sarif := benignSarifWorld
  maxRetry := 3
  fuel := 1

/-- Configuration for the C9 failing input: scan mode `activescan`. -/
def c9Analysis : SOOSDASTAnalysis :=
  { projectName := some "proj", scanMode := some activeScanConst,
    targetUrl := some "http://target" }

/-- Run environment for the C9 failing input: target reachable and the
start-analysis call succeeds immediately. -/
def c9World : RunWorld where
  targetAvailable := true
  startOracle := fun _ => HttpAttempt.resp true Option.none
  statusOracle := fun _ _ _ => HttpAttempt.resp true Option.none
  uploadOracle := fun _ => HttpAttempt.resp true Option.none
  reportFileExists := true
  reportParse := Except.ok ()
  scanExitCode := 0
  sarif := benignSarifWorld
  maxRetry := 3
  fuel := 1

/-- Configuration for the C6 counterexample: api scan mode with a
format and a minimum log level configured. -/
def c6Analysis : SOOSDASTAnalysis :=
  { projectName := some "proj", scanMode := some "apiscan",
    targetUrl := some "http://target", apiScanFormat := some "openapi",
    logLevel := some "INFO" }

/-- Configuration for the C6 witness: everything that can be configured
is configured. -/
def c6WitnessAnalysis : SOOSDASTAnalysis :=
  { projectName := some "proj", scanMode := some "apiscan",
    targetUrl := some "http://target", apiScanFormat := some "openapi",
    debugMode := true, rulesFile := some "rules.conf",
    contextFile := some "ctx.context", ajaxSpiderScan := true,
    minutesDelay := some "5", logLevel := some "WARN",
    authLoginUrl := some "http://login", requestCookies := some "a=1",
    requestHeader := some "X: y", zapOptions := some "-config x=y" }

/-- Configuration for the C5 witness. -/
def c5Analysis : SOOSDASTAnalysis :=
  { projectName := some "proj", scanMode := some "baseline",
    targetUrl := some "http://target" }

/-- Run environment for the C5 witness: every remote call succeeds on
its first attempt but the scanner leaves no report file. -/
def c5World : RunWorld where
  targetAvailable := true
  startOracle := fun _ => HttpAttempt.resp true Option.none
  statusOracle := fun _ _ _ => HttpAttempt.resp true Option.none
  uploadOracle := fun _ => HttpAttempt.resp true Option.none
  reportFileExists := false
  reportParse := Except.ok ()
  scanExitCode := 0
  sarif := benignSarifWorld
  maxRetry := 3
  fuel := 1

/-- Recognizes set-status events in a run trace. -/
def isStatusCall : RunEvent → Bool
  | RunEvent.statusCall _ _ => true
  | _ => false

/-- Configuration for the C1 counterexample: an unknown scan mode. -/
def c1Analysis : SOOSDASTAnalysis :=
  { projectName := some "proj", scanMode := some "fakemode",
    targetUrl := some "http://target" }

/-- Run environment for the C1 counterexample: target reachable, the
start-analysis call succeeds immediately. -/
def c1World : RunWorld where
  targetAvailable := true
  startOracle := fun _ => HttpAttempt.resp true Option.none
  statusOracle := fun _ _ _ => HttpAttempt.resp true Option.none
  uploadOracle := fun _ => HttpAttempt.resp true Option.none
  reportFileExists := true
  reportParse := Except.ok ()
  scanExitCode := 0
  sarif := benignSarifWorld
  maxRetry := 3
  fuel := 1

/-- Run environment for the C1 witness: the upload fails on every
attempt with error body message `upload rejected`. -/
def c1UploadFailWorld : RunWorld where
  targetAvailable := true
  startOracle := fun _ => HttpAttempt.resp true Option.none
  statusOracle := fun _ _ _ => HttpAttempt.resp true Option.none
  uploadOracle := fun _ => HttpAttempt.resp false (some "upload rejected")
  reportFileExists := true
  reportParse := Except.ok ()
  scanExitCode := 0
  sarif := benignSarifWorld
  maxRetry := 3
  fuel := 1

/-- Configuration for the C1 witness. -/
def c1WitnessAnalysis : SOOSDASTAnalysis :=
  { projectName := some "proj", scanMode := some "baseline",
    targetUrl := some "http://target" }

/-- A SARIF environment in which every fetch attempt yields an HTTP 500
error payload. -/
def sarifAll500World : SarifWorld where
  fetchAttempts := fun _ => SarifFetchAttempt.errorResponse 500 "Internal Server Error"
  githubPostStatus := 201
  githubPostMessageField := Except.ok Option.none
  githubUrlField := Except.ok ()
  githubGetStatus := 200
  githubGetMessageField := Except.ok Option.none
  processingStatusField := Except.ok "pending"

/-- A SARIF environment in which the fetch succeeds but GitHub answers
the SARIF POST with 404 and a body without a usable `message`. -/
def sarifGithub404World : SarifWorld where
  fetchAttempts := fun _ => SarifFetchAttempt.ok
  githubPostStatus := 404
  githubPostMessageField := Except.ok Option.none
  githubUrlField := Except.ok ()
  githubGetStatus := 200
  githubGetMessageField := Except.ok Option.none
  processingStatusField := Except.ok "pending"

/-- Configuration for the C8 witness (SARIF flag enabled). -/
def c8Analysis : SOOSDASTAnalysis :=
  { projectName := some "proj", scanMode := some "baseline",
    targetUrl := some "http://target", generateSarifReport := PyValue.bool true,
    githubPat := some "ghp_token" }

/-- Run environment for the C8 witness. -/
def c8World : RunWorld where
  targetAvailable := true
  startOracle := fun _ => HttpAttempt.resp true Option.none
  statusOracle := fun _ _ _ => HttpAttempt.resp true Option.none
  uploadOracle := fun _ => HttpAttempt.resp true Option.none
  reportFileExists := true
  reportParse := Except.ok ()
  scanExitCode := 0
  sarif := benignSarifWorld
  maxRetry := 3
  fuel := 1

/-- Environment for the C10 witness: both credential variables set. -/
def c10Env : String → Option String :=
  fun k => if k == soosClientIdKey then some "client-id"
           else if k == soosApiKeyEnvKey then some "api-key"
           else Option.none

/-- Provided CLI flags for the C10 witness: only `--projectName`. -/
def c10Flags : List (String × PyValue) := [("projectName", PyValue.str "proj")]

/-- Run environment for the C10 witness. -/
def c10World : RunWorld where
  targetAvailable := true
  startOracle := fun _ => HttpAttempt.resp true Option.none
  statusOracle := fun _ _ _ => HttpAttempt.resp true Option.none
  uploadOracle := fun _ => HttpAttempt.resp true Option.none
  reportFileExists := true
  reportParse := Except.ok ()
  scanExitCode := 0
  sarif := benignSarifWorld
  maxRetry := 3
  fuel := 1

/-! ## Retry-loop lemmas -/

lemma forRetryLoop_all_fail (oracle : Nat → HttpAttempt) :
    ∀ (rem idx : Nat) (le : Option (Option String)),
      (∀ j, idx ≤ j → j < idx + rem → ∃ m, oracle j = HttpAttempt.resp false m) →
      ∃ e, forRetryLoop oracle rem idx le = LoopOutcome.exhausted (idx + rem) e := by
  intro rem
  induction rem with
  | zero => intro idx le _h; exact ⟨le, rfl⟩
  | succ rem ih =>
    intro idx le h
    obtain ⟨m, hm⟩ := h idx (le_refl _) (by omega)
    obtain ⟨e, he⟩ := ih (idx + 1) (some m) (fun j hj1 hj2 => h j (by omega) (by omega))
    refine ⟨e, ?_⟩
    simp only [forRetryLoop, hm]
    have harith : idx + (rem + 1) = idx + 1 + rem := by omega
    rw [harith]
    exact he

lemma forRetryLoop_first_success (oracle : Nat → HttpAttempt) :
    ∀ (rem idx : Nat) (le : Option (Option String)) (i : Nat) (m : Option String),
      idx ≤ i → i < idx + rem →
      (∀ j, idx ≤ j → j < i → ∃ m2, oracle j = HttpAttempt.resp false m2) →
      oracle i = HttpAttempt.resp true m →
      forRetryLoop oracle rem idx le = LoopOutcome.success (i + 1) := by
  intro rem
  induction rem with
  | zero => intro idx le i m h1 h2 _ _; exact ((by omega : False).elim)
  | succ rem ih =>
    intro idx le i m h1 h2 hfail hi
    by_cases hc : idx = i
    · subst hc; simp [forRetryLoop, hi]
    · obtain ⟨m2, hm2⟩ := hfail idx (le_refl _) (by omega)
      simp only [forRetryLoop, hm2]
      exact ih (idx + 1) (some m2) i m (by omega) (by omega)
        (fun j a b => hfail j (by omega) b) hi

lemma forRetryLoop_first_raise (oracle : Nat → HttpAttempt) :
    ∀ (rem idx : Nat) (le : Option (Option String)) (i : Nat) (e : String),
      idx ≤ i → i < idx + rem →
      (∀ j, idx ≤ j → j < i → ∃ m2, oracle j = HttpAttempt.resp false m2) →
      oracle i = HttpAttempt.raise e →
      forRetryLoop oracle rem idx le = LoopOutcome.raised (i + 1) e := by
  intro rem
  induction rem with
  | zero => intro idx le i e h1 h2 _ _; exact ((by omega : False).elim)
  | succ rem ih =>
    intro idx le i e h1 h2 hfail hi
    by_cases hc : idx = i
    · subst hc; simp [forRetryLoop, hi]
    · obtain ⟨m2, hm2⟩ := hfail idx (le_refl _) (by omega)
      simp only [forRetryLoop, hm2]
      exact ih (idx + 1) (some m2) i e (by omega) (by omega)
        (fun j a b => hfail j (by omega) b) hi

lemma forRetryLoop_no_raise (oracle : Nat → HttpAttempt) :
    ∀ (rem idx : Nat) (le : Option (Option String)),
      (∀ j, idx ≤ j → j < idx + rem → ∃ ok m, oracle j = HttpAttempt.resp ok m) →
      (∃ k, forRetryLoop oracle rem idx le = LoopOutcome.success k) ∨
      (∃ k e, forRetryLoop oracle rem idx le = LoopOutcome.exhausted k e) := by
  intro rem
  induction rem with
  | zero => intro idx le _h; exact Or.inr ⟨idx, le, rfl⟩
  | succ rem ih =>
    intro idx le h
    obtain ⟨ok, m, hm⟩ := h idx (le_refl _) (by omega)
    cases ok with
    | true => exact Or.inl ⟨idx + 1, by simp [forRetryLoop, hm]⟩
    | false =>
      simp only [forRetryLoop, hm]
      exact ih (idx + 1) (some m) (fun j a b => h j (by omega) (by omega))

lemma whileRetryLoopAux_all_fail (oracle : Nat → HttpAttempt) :
    ∀ (fuel attempt : Nat) (le : Option (Option String)),
      1 ≤ attempt →
      (∀ j, attempt - 1 ≤ j → j < attempt - 1 + fuel → ∃ m, oracle j = HttpAttempt.resp false m) →
      ∃ e, whileRetryLoopAux oracle fuel attempt le =
        LoopOutcome.exhausted (attempt - 1 + fuel) e := by
  intro fuel
  induction fuel with
  | zero => intro attempt le _h1 _h; exact ⟨le, rfl⟩
  | succ fuel ih =>
    intro attempt le h1 h
    obtain ⟨m, hm⟩ := h (attempt - 1) (le_refl _) (by omega)
    obtain ⟨e, he⟩ := ih (attempt + 1) (some m) (by omega)
      (fun j hj1 hj2 => h j (by omega) (by omega))
    refine ⟨e, ?_⟩
    simp only [whileRetryLoopAux, hm]
    have harith : attempt - 1 + (fuel + 1) = attempt + 1 - 1 + fuel := by omega
    rw [harith]
    exact he

lemma whileRetryLoopAux_all_fail_const (oracle : Nat → HttpAttempt) (msgv : Option String) :
    ∀ (fuel attempt : Nat) (le : Option (Option String)),
      1 ≤ attempt → 1 ≤ fuel →
      (∀ j, attempt - 1 ≤ j → j < attempt - 1 + fuel → oracle j = HttpAttempt.resp false msgv) →
      whileRetryLoopAux oracle fuel attempt le =
        LoopOutcome.exhausted (attempt - 1 + fuel) (some msgv) := by
  intro fuel
  induction fuel with
  | zero => intro attempt le _h1 h2 _h; exact ((by omega : False).elim)
  | succ fuel ih =>
    intro attempt le h1 _h2 h
    have hm := h (attempt - 1) (le_refl _) (by omega)
    simp only [whileRetryLoopAux, hm]
    cases fuel with
    | zero =>
      have harith : attempt - 1 + (0 + 1) = attempt + 1 - 1 := by omega
      rw [harith]
      rfl
    | succ f =>
      have := ih (attempt + 1) (some msgv) (by omega) (by omega)
        (fun j hj1 hj2 => h j (by omega) (by omega))
      rw [this]
      have harith : attempt + 1 - 1 + (f + 1) = attempt - 1 + (f + 1 + 1) := by omega
      rw [harith]

lemma whileRetryLoopAux_first_success (oracle : Nat → HttpAttempt) :
    ∀ (fuel attempt : Nat) (le : Option (Option String)) (i : Nat) (m : Option String),
      1 ≤ attempt → attempt - 1 ≤ i → i < attempt - 1 + fuel →
      (∀ j, attempt - 1 ≤ j → j < i → ∃ m2, oracle j = HttpAttempt.resp false m2) →
      oracle i = HttpAttempt.resp true m →
      whileRetryLoopAux oracle fuel attempt le = LoopOutcome.success (i + 1) := by
  intro fuel
  induction fuel with
  | zero => intro attempt le i m h1 h2 h3 _ _; exact ((by omega : False).elim)
  | succ fuel ih =>
    intro attempt le i m h1 h2 h3 hfail hi
    by_cases hc : attempt - 1 = i
    · have : oracle (attempt - 1) = HttpAttempt.resp true m := by rw [hc]; exact hi
      simp only [whileRetryLoopAux, this]
      have : attempt = i + 1 := by omega
      rw [this]
    · obtain ⟨m2, hm2⟩ := hfail (attempt - 1) (le_refl _) (by omega)
      simp only [whileRetryLoopAux, hm2]
      exact ih (attempt + 1) (some m2) i m (by omega) (by omega) (by omega)
        (fun j a b => hfail j (by omega) b) hi

lemma whileRetryLoop_all_fail (oracle : Nat → HttpAttempt) (n : Nat)
    (h : ∀ j, j < n → ∃ m, oracle j = HttpAttempt.resp false m) :
    ∃ e, whileRetryLoop oracle n = LoopOutcome.exhausted n e := by
  have := whileRetryLoopAux_all_fail oracle n 1 Option.none (le_refl _)
    (fun j hj1 hj2 => h j (by omega))
  simpa [whileRetryLoop] using this

lemma whileRetryLoop_first_success (oracle : Nat → HttpAttempt) (n i : Nat) (m : Option String)
    (hi : i < n)
    (hfail : ∀ j, j < i → ∃ m2, oracle j = HttpAttempt.resp false m2)
    (hok : oracle i = HttpAttempt.resp true m) :
    whileRetryLoop oracle n = LoopOutcome.success (i + 1) := by
  have := whileRetryLoopAux_first_success oracle n 1 Option.none i m (le_refl _)
    (by omega) (by omega) (fun j hj1 hj2 => hfail j hj2) hok
  simpa [whileRetryLoop] using this

/-! ## Operation-level lemmas -/

lemma deadAttemptCheck (n : Nat) : ¬ ((if n = 0 then 0 else n - 1) > n) := by
  split <;> omega

lemma startRequest_first_ok (pn sm : Option String) (oracle : Nat → HttpAttempt)
    (n : Nat) (m : Option String)
    (h0 : oracle 0 = HttpAttempt.resp true m) (hn : 0 < n)
    (hpn : optEmpty pn = false) (hsm : optEmpty sm = false) :
    makeStartAnalysisRequest pn sm oracle n = StartResult.ok 1 := by
  have hloop := forRetryLoop_first_success oracle n 0 Option.none 0 m (le_refl _)
    (by omega) (fun j _ b => absurd b (Nat.not_lt_zero j)) h0
  simp [makeStartAnalysisRequest, hpn, hsm, hloop]

lemma startRequest_all_fail (pn sm : Option String) (oracle : Nat → HttpAttempt) (n : Nat)
    (hfail : ∀ j, j < n → ∃ m, oracle j = HttpAttempt.resp false m)
    (hpn : optEmpty pn = false) (hsm : optEmpty sm = false) :
    makeStartAnalysisRequest pn sm oracle n =
      StartResult.exitApp startAnalysisGenericMessage := by
  obtain ⟨e, hloop⟩ := forRetryLoop_all_fail oracle n 0 Option.none
    (fun j _ b => hfail j (by omega))
  simp [makeStartAnalysisRequest, hpn, hsm, hloop, deadAttemptCheck n]

lemma statusRequest_first_ok (oracles : Nat → Nat → HttpAttempt) (n fuel d : Nat)
    (s : String) (msg : Option String) (m : Option String)
    (h0 : oracles d 0 = HttpAttempt.resp true m) (hn : 0 < n) :
    makeScanStatusRequest oracles n (fuel + 1) d s msg = (StatusResult.ok, [(s, msg)]) := by
  have hloop := forRetryLoop_first_success (oracles d) n 0 Option.none 0 m (le_refl _)
    (by omega) (fun j _ b => absurd b (Nat.not_lt_zero j)) h0
  simp [makeScanStatusRequest, hloop]

lemma statusRequest_all_fail (oracles : Nat → Nat → HttpAttempt) (n fuel d : Nat)
    (s : String) (msg : Option String)
    (hfail : ∀ j, j < n → ∃ m, oracles d j = HttpAttempt.resp false m) :
    makeScanStatusRequest oracles n (fuel + 1) d s msg =
      (StatusResult.exitApp startAnalysisGenericMessage, [(s, msg)]) := by
  obtain ⟨e, hloop⟩ := forRetryLoop_all_fail (oracles d) n 0 Option.none
    (fun j _ b => hfail j (by omega))
  simp [makeScanStatusRequest, hloop, deadAttemptCheck n]

lemma uploadRequest_first_ok (parse : Except String Unit) (oracle : Nat → HttpAttempt)
    (statusOracles : Nat → Nat → HttpAttempt) (n fuel : Nat) (m : Option String)
    (hp : parse = Except.ok ())
    (h0 : oracle 0 = HttpAttempt.resp true m) (hn : 0 < n) :
    makeUploadDastResultsRequest parse oracle statusOracles n fuel =
      (UploadResult.ok 1, []) := by
  have hloop := whileRetryLoop_first_success oracle n 0 m (by omega)
    (fun j b => absurd b (Nat.not_lt_zero j)) h0
  simp [makeUploadDastResultsRequest, hp, hloop]

lemma uploadRequest_all_fail_const (parse : Except String Unit)
    (oracle : Nat → HttpAttempt) (statusOracles : Nat → Nat → HttpAttempt)
    (n fuel : Nat) (em : String) (m : Option String)
    (hp : parse = Except.ok ())
    (hfail : ∀ j, j < n → oracle j = HttpAttempt.resp false (some em))
    (hn : 1 ≤ n)
    (hst : statusOracles 0 0 = HttpAttempt.resp true m) :
    makeUploadDastResultsRequest parse oracle statusOracles n (fuel + 1) =
      (UploadResult.exited (some em), [("Error", some em)]) := by
  have hloop : whileRetryLoop oracle n = LoopOutcome.exhausted n (some (some em)) := by
    have := whileRetryLoopAux_all_fail_const oracle (some em) n 1 Option.none
      (le_refl _) hn (fun j hj1 hj2 => hfail j (by omega))
    simpa [whileRetryLoop] using this
  have hstatus := statusRequest_first_ok statusOracles n fuel 0 "Error" (some em) m hst hn
  simp [makeUploadDastResultsRequest, hp, hloop, hstatus]

/-! ## Command structure: the blocks of the generated command -/

lemma addDebugOption_eq (cfg : SOOSDASTAnalysis) (args : List String) :
    addDebugOption cfg args = args ++ debugBlock cfg := by
  unfold addDebugOption debugBlock; split <;> simp

lemma addRulesFileOption_eq (cfg : SOOSDASTAnalysis) (args : List String) :
    addRulesFileOption cfg args = args ++ rulesBlock cfg := by
  unfold addRulesFileOption rulesBlock; split <;> simp

lemma addContextFileOption_eq (cfg : SOOSDASTAnalysis) (args : List String) :
    addContextFileOption cfg args = args ++ contextBlock cfg := by
  unfold addContextFileOption contextBlock; split <;> simp

lemma addAjaxSpiderScanOption_eq (cfg : SOOSDASTAnalysis) (args : List String) :
    addAjaxSpiderScanOption cfg args = args ++ ajaxBlock cfg := by
  unfold addAjaxSpiderScanOption ajaxBlock; split <;> simp

lemma addMinutesDelayOption_eq (cfg : SOOSDASTAnalysis) (args : List String) :
    addMinutesDelayOption cfg args = args ++ minutesBlock cfg := by
  unfold addMinutesDelayOption minutesBlock; split <;> simp

lemma addZapOptions_eq (cfg : SOOSDASTAnalysis) (args : List String) :
    addZapOptions cfg args =
      args ++ [zapOtherOptions, String.intercalate " " (zapOptsList cfg)] := by
  unfold addZapOptions zapOptsList; simp

/-- `__generate_command__` always produces the input arguments followed
by the fixed command tail. -/
lemma generateCommand_eq (cfg : SOOSDASTAnalysis) (args : List String) :
    generateCommand cfg args = args ++ commandTail cfg := by
  by_cases hz : zapOptionsCondition cfg
  · simp only [generateCommand, commandTail, zapOptionsBlock, hz, if_true,
      addDebugOption_eq, addRulesFileOption_eq, addContextFileOption_eq,
      addAjaxSpiderScanOption_eq, addMinutesDelayOption_eq, addZapOptions_eq]
    simp
  · simp only [generateCommand, commandTail, zapOptionsBlock, hz,
      addDebugOption_eq, addRulesFileOption_eq, addContextFileOption_eq,
      addAjaxSpiderScanOption_eq, addMinutesDelayOption_eq]
    simp

lemma addTargetUrlOption_ok (u : String) (args : List String) (hu : u.isEmpty = false) :
    addTargetUrlOption (some u) args = Except.ok (args ++ [zapTargetUrlOption, u]) := by
  simp [addTargetUrlOption, hasValue, hu]

/-- `baseline_scan` on a present target URL. -/
lemma baselineScan_ok (cfg : SOOSDASTAnalysis) (u : String)
    (ht : cfg.targetUrl = some u) (hu : u.isEmpty = false) :
    baselineScan cfg =
      Except.ok ([pyCmd, baseLineScript, zapTargetUrlOption, u] ++ commandTail cfg) := by
  simp [baselineScan, ht, addTargetUrlOption_ok u _ hu, generateCommand_eq]

/-- `full_scan` on a present target URL. -/
lemma fullScan_ok (cfg : SOOSDASTAnalysis) (u : String)
    (ht : cfg.targetUrl = some u) (hu : u.isEmpty = false) :
    fullScan cfg =
      Except.ok ([pyCmd, fullScanScript, zapTargetUrlOption, u] ++ commandTail cfg) := by
  simp [fullScan, ht, addTargetUrlOption_ok u _ hu, generateCommand_eq]

/-- `api_scan` on a present target URL and a present format. -/
lemma apiScan_ok (cfg : SOOSDASTAnalysis) (u f : String)
    (ht : cfg.targetUrl = some u) (hu : u.isEmpty = false)
    (hf : cfg.apiScanFormat = some f) (hfe : f.isEmpty = false) :
    apiScan cfg =
      Except.ok ([pyCmd, apiScanScript, zapTargetUrlOption, u, zapFormatOption, f] ++
        commandTail cfg) := by
  simp [apiScan, ht, hf, validRequired, hfe, addTargetUrlOption_ok u _ hu,
    addFormatOption, hasValue, generateCommand_eq]

/-! ## Claim theorems -/

/-- Claim C4: every remote-client operation (start analysis, set
status, upload results) makes exactly `MAX_RETRY_COUNT` (= `n`)
attempts before exhaustion is declared, and the first attempt returning
a success HTTP status short-circuits the loop immediately — the loop
reports success after `i + 1` calls and the operation returns its
success result. -/
theorem remoteRetry_exact_and_shortCircuit (oracle : Nat → HttpAttempt) (n i : Nat)
    (pn sm : Option String) (statusOracles : Nat → Nat → HttpAttempt)
    (parse : Except String Unit) (fuel d : Nat) (s : String) (msg : Option String) :
    ((∀ j, j < n → ∃ m, oracle j = HttpAttempt.resp false m) →
      (∃ e, forRetryLoop oracle n 0 Option.none = LoopOutcome.exhausted n e) ∧
      (∃ e, whileRetryLoop oracle n = LoopOutcome.exhausted n e)) ∧
    (∀ m, i < n →
      (∀ j, j < i → ∃ m2, oracle j = HttpAttempt.resp false m2) →
      oracle i = HttpAttempt.resp true m →
      forRetryLoop oracle n 0 Option.none = LoopOutcome.success (i + 1) ∧
      whileRetryLoop oracle n = LoopOutcome.success (i + 1) ∧
      (optEmpty pn = false → optEmpty sm = false →
        makeStartAnalysisRequest pn sm oracle n = StartResult.ok (i + 1)) ∧
      makeScanStatusRequest (fun _ => oracle) n (fuel + 1) d s msg =
        (StatusResult.ok, [(s, msg)]) ∧
      (parse = Except.ok () →
        makeUploadDastResultsRequest parse oracle statusOracles n fuel =
          (UploadResult.ok (i + 1), []))) := by
  constructor
  · intro hfail
    refine ⟨?_, whileRetryLoop_all_fail oracle n hfail⟩
    simpa using forRetryLoop_all_fail oracle n 0 Option.none (fun j _ b => hfail j (by omega))
  · intro m hi hfail hok
    have h1 := forRetryLoop_first_success oracle n 0 Option.none i m (by omega) (by omega)
      (fun j _ b => hfail j b) hok
    have h2 := whileRetryLoop_first_success oracle n i m hi hfail hok
    refine ⟨h1, h2, ?_, ?_, ?_⟩
    · intro hpn hsm
      simp [makeStartAnalysisRequest, hpn, hsm, h1]
    · simp [makeScanStatusRequest, h1]
    · intro hp
      simp [makeUploadDastResultsRequest, hp, h2]

/-- Witness for C4 at concrete inputs. -/
theorem remoteRetry_exact_and_shortCircuit_witness :
    (∃ e, forRetryLoop c4FailOracle 3 0 Option.none = LoopOutcome.exhausted 3 e) ∧
    (∃ e, whileRetryLoop c4FailOracle 3 = LoopOutcome.exhausted 3 e) ∧
    forRetryLoop c4OkAtOneOracle 3 0 Option.none = LoopOutcome.success 2 ∧
    whileRetryLoop c4OkAtOneOracle 3 = LoopOutcome.success 2 ∧
    makeStartAnalysisRequest (some "proj") (some "baseline") c4OkAtOneOracle 3 =
      StartResult.ok 2 ∧
    makeUploadDastResultsRequest (Except.ok ()) c4OkAtOneOracle
      (fun _ _ => HttpAttempt.resp true Option.none) 3 1 = (UploadResult.ok 2, []) := by
  have hexh := (remoteRetry_exact_and_shortCircuit c4FailOracle 3 0 (some "proj")
    (some "baseline") (fun _ _ => HttpAttempt.resp true Option.none) (Except.ok ()) 0 0
    "Running" Option.none).1 (fun j _ => ⟨some "server busy", rfl⟩)
  have hok := (remoteRetry_exact_and_shortCircuit c4OkAtOneOracle 3 1 (some "proj")
    (some "baseline") (fun _ _ => HttpAttempt.resp true Option.none) (Except.ok ()) 1 0
    "Running" Option.none).2 Option.none (by omega)
    (fun j hj => ⟨Option.none, by
      have : j = 0 := by omega
      subst this
      rfl⟩) rfl
  exact ⟨hexh.1, hexh.2, hok.1, hok.2.1, hok.2.2.1 rfl rfl, hok.2.2.2.2 rfl⟩

/-- Counterexample to claim C2 as stated: a set-status invocation whose
retries are exhausted (all responses non-success, no exception)
terminates through `exit_app` with zero secondary self-notify calls —
the returned invocation list holds only the original invocation, not
the claimed additional `Error` self-notification. -/
theorem setStatus_exhaustion_counterexample :
    makeScanStatusRequest c2ExhaustOracles 3 5 0 "Error" (some "failure detail") =
      (StatusResult.exitApp startAnalysisGenericMessage,
        [("Error", some "failure detail")]) := by
  rfl

/-- Claim C2 (amended): only when an attempt of the set-status operation
raises an exception does it issue a secondary self-notify call with
status `Error` carrying the (generic) failure message; if that secondary
invocation does not itself raise, exactly one secondary call is made and
the process then terminates.  (On plain retry exhaustion no secondary
call is issued, and a raising secondary call recurses again.) -/
theorem setStatus_exception_single_secondary (oracles : Nat → Nat → HttpAttempt)
    (n fuel i : Nat) (s : String) (msg : Option String) (e : String)
    (hi : i < n)
    (hpre : ∀ j, j < i → ∃ m, oracles 0 j = HttpAttempt.resp false m)
    (hraise : oracles 0 i = HttpAttempt.raise e)
    (hnoraise : ∀ a, ∃ ok m, oracles 1 a = HttpAttempt.resp ok m) :
    makeScanStatusRequest oracles n (fuel + 2) 0 s msg =
      (StatusResult.exitApp startAnalysisGenericMessage,
        [(s, msg), ("Error", some startAnalysisGenericMessage)]) := by
  have hloop0 := forRetryLoop_first_raise (oracles 0) n 0 Option.none i e (by omega)
    (by omega) (fun j _ b => hpre j b) hraise
  rcases forRetryLoop_no_raise (oracles 1) n 0 Option.none
      (fun j _ _ => hnoraise j) with ⟨k, hk⟩ | ⟨k, e2, hk⟩
  · simp [makeScanStatusRequest, hloop0, hk]
  · simp [makeScanStatusRequest, hloop0, hk, deadAttemptCheck n]

/-- Witness for the amended C2 at concrete inputs. -/
theorem setStatus_exception_single_secondary_witness :
    makeScanStatusRequest c2RaiseOracles 3 2 0 "Running" Option.none =
      (StatusResult.exitApp startAnalysisGenericMessage,
        [("Running", Option.none), ("Error", some startAnalysisGenericMessage)]) := by
  exact setStatus_exception_single_secondary c2RaiseOracles 3 0 0 "Running" Option.none
    "connection reset" (by omega)
    (fun j hj => absurd hj (Nat.not_lt_zero j))
    rfl (fun a => ⟨false, Option.none, rfl⟩)

/-- Claim C3 (evaluation at the failing input): when the start-analysis
endpoint returns a non-success status on all 3 attempts with error body
message `server down`, the process terminates with exit code 1 and no
subsequent remote calls — but the surfaced message is the generic
`An error has occurred Starting the Analysis`, not the body's
`server down`: the `attempt > MAX_RETRY_COUNT` guard in front of the
extraction is never true after `for attempt in range(0, MAX_RETRY_COUNT)`,
so the extraction branch is dead. -/
theorem startAnalysis_exhaustion_surfaces_generic_message :
    makeStartAnalysisRequest (some "proj") (some "baseline")
      (fun _ => HttpAttempt.resp false (some "server down")) 3 =
      StartResult.exitApp startAnalysisGenericMessage ∧
    startAnalysisGenericMessage ≠ "server down" ∧
    runAnalysis (Except.ok c3Analysis) c3World =
      (RunOutcome.exit1 (some startAnalysisGenericMessage), [RunEvent.startCall]) := by
  refine ⟨rfl, by decide, rfl⟩

/-- Claim C7: in api scan mode with no resolvable API scan format,
command building fails (before any command is produced) with the
configuration error raised by `valid_required("api_scan_format", ...)`;
and the api mode does dispatch to `api_scan`. -/
theorem apiScan_missing_format_fails (cfg : SOOSDASTAnalysis)
    (h : optEmpty cfg.apiScanFormat = true) :
    apiScan cfg = Except.error "api_scan_format is required" ∧
    scanModeDispatch (some apiScanConst) = some apiScan := by
  refine ⟨?_, rfl⟩
  cases hx : cfg.apiScanFormat with
  | none => simp [apiScan, validRequired, hx]
  | some s =>
    rw [hx] at h
    simp only [optEmpty] at h
    simp [apiScan, validRequired, hx, h]

/-- Witness for C7: the default configuration in api scan mode has no
format, and command building fails. -/
theorem apiScan_missing_format_fails_witness :
    apiScan { scanMode := some "apiscan", targetUrl := some "http://target" } =
      Except.error "api_scan_format is required" :=
  (apiScan_missing_format_fails
    { scanMode := some "apiscan", targetUrl := some "http://target" } rfl).1

/-- Claim C9 (evaluation at the failing input): `scan_mode_map` holds
builders for `baseline`, `fullscan` and `apiscan` only; dispatch on any
other string — including `activescan`, which the program's own
`--scanMode` help text lists as an available value — yields nothing, and
the run exits through `The scan mode ... is invalid.`. -/
theorem activescan_dispatch_invalid :
    scanModeDispatch (some activeScanConst) = Option.none ∧
    (scanModeDispatch (some baselineConst)).isSome = true ∧
    (scanModeDispatch (some fullScanConst)).isSome = true ∧
    (scanModeDispatch (some apiScanConst)).isSome = true ∧
    scanModeDispatch (some "bogusmode") = Option.none ∧
    scanModeDispatch Option.none = Option.none ∧
    runAnalysis (Except.ok c9Analysis) c9World =
      (RunOutcome.exit1 (some "The scan mode activescan is invalid."),
        [RunEvent.startCall]) := by
  exact ⟨rfl, rfl, rfl, rfl, rfl, rfl, rfl⟩

/-- Counterexample to claim C6 as stated: with a configured minimum log
level (`INFO`) in api mode, the generated command places the format flag
directly after the target URL (not after the minutes-delay position)
and contains no minimum-log-level flag at all —
`__add_log_level_option__` is never invoked by `__generate_command__`. -/
theorem command_order_counterexample :
    apiScan c6Analysis =
      Except.ok [pyCmd, apiScanScript, zapTargetUrlOption, "http://target",
        zapFormatOption, "openapi", zapHookOption, hookScriptPath,
        zapJsonReportOption, reportScanResultFilename] ∧
    List.contains [pyCmd, apiScanScript, zapTargetUrlOption, "http://target",
        zapFormatOption, "openapi", zapHookOption, hookScriptPath,
        zapJsonReportOption, reportScanResultFilename] zapMinimumLevelOption = false ∧
    List.contains [pyCmd, apiScanScript, zapTargetUrlOption, "http://target",
        zapFormatOption, "openapi", zapHookOption, hookScriptPath,
        zapJsonReportOption, reportScanResultFilename] "INFO" = false := by
  exact ⟨rfl, by decide, by decide⟩

/-- Claim C6 (amended): every built scan command begins with the
interpreter+script pair selected by scan mode followed by the
target-URL option, then — in api mode only — the format flag+value
immediately after the target URL, and then appends, conditionally and
in this fixed order: debug flag, rules-file flag+path, context-file
flag+path, ajax-spider flag, minutes-delay flag+value, the auxiliary
zap-options block (emitted only if login URL or free-form options are
truthy or cookies are non-None), the fixed hook-script flag, and the
JSON-report-output flag with the fixed filename.  The minimum-log-level
flag is never appended: the command tail does not depend on the
configured log level. -/
theorem command_structure (cfg : SOOSDASTAnalysis) (u f : String)
    (ht : cfg.targetUrl = some u) (hu : u.isEmpty = false) :
    baselineScan cfg =
      Except.ok ([pyCmd, baseLineScript, zapTargetUrlOption, u] ++ commandTail cfg) ∧
    fullScan cfg =
      Except.ok ([pyCmd, fullScanScript, zapTargetUrlOption, u] ++ commandTail cfg) ∧
    (cfg.apiScanFormat = some f → f.isEmpty = false →
      apiScan cfg =
        Except.ok ([pyCmd, apiScanScript, zapTargetUrlOption, u, zapFormatOption, f] ++
          commandTail cfg)) ∧
    commandTail cfg =
      debugBlock cfg ++ rulesBlock cfg ++ contextBlock cfg ++ ajaxBlock cfg ++
        minutesBlock cfg ++ zapOptionsBlock cfg ++
        [zapHookOption, hookScriptPath] ++
        [zapJsonReportOption, reportScanResultFilename] ∧
    (∀ l, commandTail { cfg with logLevel := l } = commandTail cfg) := by
  refine ⟨baselineScan_ok cfg u ht hu, fullScan_ok cfg u ht hu, ?_, rfl, ?_⟩
  · intro hf hfe
    exact apiScan_ok cfg u f ht hu hf hfe
  · intro l
    rfl

/-- Witness for the amended C6 at a fully-populated configuration. -/
theorem command_structure_witness :
    apiScan c6WitnessAnalysis =
      Except.ok ([pyCmd, apiScanScript, zapTargetUrlOption, "http://target",
        zapFormatOption, "openapi"] ++ commandTail c6WitnessAnalysis) ∧
    commandTail { c6WitnessAnalysis with logLevel := Option.none } =
      commandTail c6WitnessAnalysis := by
  have h := command_structure c6WitnessAnalysis "http://target" "openapi" rfl rfl
  exact ⟨h.2.2.1 rfl rfl, h.2.2.2.2 Option.none⟩

/-- `os.system`'s return value is discarded by `run_analysis`: the whole
run is unaffected by the scanner subprocess exit code. -/
lemma runAnalysis_ignores_exit_code (p : Except String SOOSDASTAnalysis)
    (w : RunWorld) (c : Int) :
    runAnalysis p { w with scanExitCode := c } = runAnalysis p w := by
  cases w
  rfl

/-- Claim C5: scan-execution success is decided solely by the existence
of the expected report file after the subprocess returns — the run is
independent of the subprocess exit code — and when the file is absent,
status `Error` is reported to the remote service with the message
`An Unexpected error has occurred running the <scan mode> scan` and the
run exits with code 1. -/
theorem scanFailure_reported_by_missing_report_file (cfg : SOOSDASTAnalysis)
    (w : RunWorld) (sf : SOOSDASTAnalysis → Except String (List String))
    (cmd : List String)
    (hav : w.targetAvailable = true)
    (hpn : optEmpty cfg.projectName = false)
    (hsm : optEmpty cfg.scanMode = false)
    (hstart : w.startOracle 0 = HttpAttempt.resp true Option.none)
    (hn : 0 < w.maxRetry)
    (hdisp : scanModeDispatch cfg.scanMode = some sf)
    (hbuild : sf cfg = Except.ok cmd)
    (hfuel : ∃ fz, w.fuel = fz + 1)
    (hrun : w.statusOracle 0 0 0 = HttpAttempt.resp true Option.none)
    (hfile : w.reportFileExists = false)
    (herr : w.statusOracle 1 0 0 = HttpAttempt.resp true Option.none) :
    runAnalysis (Except.ok cfg) w =
      (RunOutcome.exit1 (some ("An Unexpected error has occurred running the " ++
          showOptStr cfg.scanMode ++ " scan")),
       [RunEvent.startCall, RunEvent.statusCall "Running" Option.none,
        RunEvent.statusCall "Error" (some ("An Unexpected error has occurred running the " ++
          showOptStr cfg.scanMode ++ " scan"))]) ∧
    (∀ c : Int, runAnalysis (Except.ok cfg) { w with scanExitCode := c } =
      runAnalysis (Except.ok cfg) w) := by
  obtain ⟨fz, hfz⟩ := hfuel
  have hstartOk := startRequest_first_ok cfg.projectName cfg.scanMode w.startOracle
    w.maxRetry Option.none hstart hn hpn hsm
  have hrunOk := statusRequest_first_ok (w.statusOracle 0) w.maxRetry fz 0 "Running"
    Option.none Option.none hrun hn
  have herrOk := statusRequest_first_ok (w.statusOracle 1) w.maxRetry fz 0 "Error"
    (some ("An Unexpected error has occurred running the " ++
      showOptStr cfg.scanMode ++ " scan")) Option.none herr hn
  refine ⟨?_, fun c => runAnalysis_ignores_exit_code (Except.ok cfg) w c⟩
  simp [runAnalysis, hav, hstartOk, hdisp, hbuild, hfz, hrunOk, hfile, herrOk,
    mapStatusTrace]

/-- Witness for C5 at concrete inputs (including independence from a
non-zero subprocess exit code). -/
theorem scanFailure_reported_by_missing_report_file_witness :
    runAnalysis (Except.ok c5Analysis) c5World =
      (RunOutcome.exit1
        (some "An Unexpected error has occurred running the baseline scan"),
       [RunEvent.startCall, RunEvent.statusCall "Running" Option.none,
        RunEvent.statusCall "Error"
          (some "An Unexpected error has occurred running the baseline scan")]) ∧
    runAnalysis (Except.ok c5Analysis) { c5World with scanExitCode := 137 } =
      runAnalysis (Except.ok c5Analysis) c5World := by
  have h := scanFailure_reported_by_missing_report_file c5Analysis c5World
    baselineScan ([pyCmd, baseLineScript, zapTargetUrlOption, "http://target"] ++
      commandTail c5Analysis)
    rfl rfl rfl rfl (by decide) rfl
    (baselineScan_ok c5Analysis "http://target" rfl rfl) ⟨0, rfl⟩ rfl rfl rfl
  exact ⟨h.1, h.2 137⟩

/-- Counterexample to claim C1 as stated: an invalid scan mode detected
after the successful start-analysis call is a fatal error, yet the run
terminates (exit code 1) with no set-status call at all — the trace
holds only the start-analysis call, so the remote status is silently
left inconsistent. -/
theorem invalidScanMode_terminates_without_status_report :
    runAnalysis (Except.ok c1Analysis) c1World =
      (RunOutcome.exit1 (some "The scan mode fakemode is invalid."),
        [RunEvent.startCall]) ∧
    List.filter isStatusCall (runAnalysis (Except.ok c1Analysis) c1World).2 = [] := by
  exact ⟨rfl, rfl⟩

/-- Claim C1 (amended): fatal errors on the result-upload path do report
status `Error` to the remote service before the process terminates, but
a fatal invalid-scan-mode error detected after the start-analysis call
(like any exception handled by `run_analysis`'s top-level `except`,
which calls `exit_app` directly) terminates the process without any
set-status call, leaving the remote status unreported. -/
theorem fatal_error_status_reporting (cfg : SOOSDASTAnalysis) (w : RunWorld)
    (em : String) (sf : SOOSDASTAnalysis → Except String (List String))
    (cmd : List String)
    (hav : w.targetAvailable = true)
    (hpn : optEmpty cfg.projectName = false)
    (hsm : optEmpty cfg.scanMode = false)
    (hstart : w.startOracle 0 = HttpAttempt.resp true Option.none)
    (hn : 0 < w.maxRetry) :
    (scanModeDispatch cfg.scanMode = Option.none →
      runAnalysis (Except.ok cfg) w =
        (RunOutcome.exit1 (some ("The scan mode " ++ showOptStr cfg.scanMode ++
            " is invalid.")),
         [RunEvent.startCall])) ∧
    (scanModeDispatch cfg.scanMode = some sf → sf cfg = Except.ok cmd →
      (∃ fz, w.fuel = fz + 1) →
      w.statusOracle 0 0 0 = HttpAttempt.resp true Option.none →
      w.reportFileExists = true →
      w.reportParse = Except.ok () →
      (∀ j, j < w.maxRetry → w.uploadOracle j = HttpAttempt.resp false (some em)) →
      w.statusOracle 1 0 0 = HttpAttempt.resp true Option.none →
      runAnalysis (Except.ok cfg) w =
        (RunOutcome.exit1 (some em),
         [RunEvent.startCall, RunEvent.statusCall "Running" Option.none,
          RunEvent.uploadCall, RunEvent.statusCall "Error" (some em)])) := by
  have hstartOk := startRequest_first_ok cfg.projectName cfg.scanMode w.startOracle
    w.maxRetry Option.none hstart hn hpn hsm
  constructor
  · intro hdisp
    simp [runAnalysis, hav, hstartOk, hdisp]
  · intro hdisp hbuild hfuel hrun hfile hparse hupfail herr
    obtain ⟨fz, hfz⟩ := hfuel
    have hrunOk := statusRequest_first_ok (w.statusOracle 0) w.maxRetry fz 0 "Running"
      Option.none Option.none hrun hn
    have hupl := uploadRequest_all_fail_const w.reportParse w.uploadOracle
      (w.statusOracle 1) w.maxRetry fz em Option.none hparse hupfail hn herr
    simp [runAnalysis, hav, hstartOk, hdisp, hbuild, hfz, hrunOk, hfile, hupl,
      mapStatusTrace]

/-- Witness for the amended C1 at concrete inputs: the upload-failure
path reports `Error`, the invalid-mode path reports nothing. -/
theorem fatal_error_status_reporting_witness :
    runAnalysis (Except.ok c1WitnessAnalysis) c1UploadFailWorld =
      (RunOutcome.exit1 (some "upload rejected"),
       [RunEvent.startCall, RunEvent.statusCall "Running" Option.none,
        RunEvent.uploadCall, RunEvent.statusCall "Error" (some "upload rejected")]) ∧
    runAnalysis (Except.ok { c1WitnessAnalysis with scanMode := some "unknownmode" })
        c1UploadFailWorld =
      (RunOutcome.exit1 (some "The scan mode unknownmode is invalid."),
        [RunEvent.startCall]) := by
  constructor
  · exact (fatal_error_status_reporting c1WitnessAnalysis c1UploadFailWorld
      "upload rejected" baselineScan
      ([pyCmd, baseLineScript, zapTargetUrlOption, "http://target"] ++
        commandTail c1WitnessAnalysis)
      rfl rfl rfl rfl (by decide)).2 rfl
      (baselineScan_ok c1WitnessAnalysis "http://target" rfl rfl)
      ⟨0, rfl⟩ rfl rfl rfl (fun j _ => rfl) rfl
  · exact (fatal_error_status_reporting
      { c1WitnessAnalysis with scanMode := some "unknownmode" } c1UploadFailWorld
      "upload rejected" baselineScan []
      rfl rfl rfl rfl (by decide)).1 rfl

/-- A run that reaches the SARIF step and then finishes: helper equation
used to settle the SARIF best-effort claim. -/
lemma runAnalysis_reaches_finished (cfg : SOOSDASTAnalysis) (w : RunWorld)
    (sf : SOOSDASTAnalysis → Except String (List String)) (cmd : List String)
    (hav : w.targetAvailable = true)
    (hpn : optEmpty cfg.projectName = false)
    (hsm : optEmpty cfg.scanMode = false)
    (hstart : w.startOracle 0 = HttpAttempt.resp true Option.none)
    (hn : 0 < w.maxRetry)
    (hdisp : scanModeDispatch cfg.scanMode = some sf)
    (hbuild : sf cfg = Except.ok cmd)
    (hfuel : ∃ fz, w.fuel = fz + 1)
    (hrun : w.statusOracle 0 0 0 = HttpAttempt.resp true Option.none)
    (hfile : w.reportFileExists = true)
    (hparse : w.reportParse = Except.ok ())
    (hupload : w.uploadOracle 0 = HttpAttempt.resp true Option.none)
    (hfin : w.statusOracle 2 0 0 = HttpAttempt.resp true Option.none) :
    runAnalysis (Except.ok cfg) w =
      (RunOutcome.exit0,
       [RunEvent.startCall, RunEvent.statusCall "Running" Option.none,
        RunEvent.uploadCall, RunEvent.sarifStep (sarifReportExec w.sarif),
        RunEvent.statusCall "Finished" Option.none]) := by
  obtain ⟨fz, hfz⟩ := hfuel
  have hstartOk := startRequest_first_ok cfg.projectName cfg.scanMode w.startOracle
    w.maxRetry Option.none hstart hn hpn hsm
  have hrunOk := statusRequest_first_ok (w.statusOracle 0) w.maxRetry fz 0 "Running"
    Option.none Option.none hrun hn
  have huplOk := uploadRequest_first_ok w.reportParse w.uploadOracle (w.statusOracle 1)
    w.maxRetry (fz + 1) Option.none hparse hupload hn
  have hfinOk := statusRequest_first_ok (w.statusOracle 2) w.maxRetry fz 0 "Finished"
    Option.none Option.none hfin hn
  simp [runAnalysis, hav, hstartOk, hdisp, hbuild, hfz, hrunOk, hfile, huplOk, hfinOk,
    mapStatusTrace]

/-- Claim C8: SARIF publication is best-effort.  For every run with the
SARIF flag enabled that reaches the publication step, and for every
behavior of the SARIF environment — including all fetch attempts
returning HTTP 500, and a GitHub 404 response — the publication step
only yields log lines, the run's outcome does not depend on it, and the
`Finished` status is still reported to the remote service afterwards
(the trace ends with the `Finished` set-status call after the SARIF
step). -/
theorem sarif_publication_best_effort (cfg : SOOSDASTAnalysis) (w : RunWorld)
    (sf : SOOSDASTAnalysis → Except String (List String)) (cmd : List String)
    (hflag : cfg.generateSarifReport = PyValue.bool true)
    (hav : w.targetAvailable = true)
    (hpn : optEmpty cfg.projectName = false)
    (hsm : optEmpty cfg.scanMode = false)
    (hstart : w.startOracle 0 = HttpAttempt.resp true Option.none)
    (hn : 0 < w.maxRetry)
    (hdisp : scanModeDispatch cfg.scanMode = some sf)
    (hbuild : sf cfg = Except.ok cmd)
    (hfuel : ∃ fz, w.fuel = fz + 1)
    (hrun : w.statusOracle 0 0 0 = HttpAttempt.resp true Option.none)
    (hfile : w.reportFileExists = true)
    (hparse : w.reportParse = Except.ok ())
    (hupload : w.uploadOracle 0 = HttpAttempt.resp true Option.none)
    (hfin : w.statusOracle 2 0 0 = HttpAttempt.resp true Option.none) :
    (∀ sw : SarifWorld,
      runAnalysis (Except.ok cfg) { w with sarif := sw } =
        (RunOutcome.exit0,
         [RunEvent.startCall, RunEvent.statusCall "Running" Option.none,
          RunEvent.uploadCall, RunEvent.sarifStep (sarifReportExec sw),
          RunEvent.statusCall "Finished" Option.none])) ∧
    sarifReportExec sarifAll500World = ["ERROR: " ++ sarifMaxRetryMessage] ∧
    sarifReportExec sarifGithub404World = ["ERROR: Github: Resource not found"] := by
  refine ⟨fun sw => ?_, rfl, rfl⟩
  exact runAnalysis_reaches_finished cfg { w with sarif := sw } sf cmd
    hav hpn hsm hstart hn hdisp hbuild hfuel hrun hfile hparse hupload hfin

/-- Witness for C8: even with every SARIF fetch attempt failing with
HTTP 500, the run exits 0 and the `Finished` status call follows the
SARIF step. -/
theorem sarif_publication_best_effort_witness :
    runAnalysis (Except.ok c8Analysis) { c8World with sarif := sarifAll500World } =
      (RunOutcome.exit0,
       [RunEvent.startCall, RunEvent.statusCall "Running" Option.none,
        RunEvent.uploadCall,
        RunEvent.sarifStep ["ERROR: " ++ sarifMaxRetryMessage],
        RunEvent.statusCall "Finished" Option.none]) :=
  (sarif_publication_best_effort c8Analysis c8World baselineScan
    ([pyCmd, baseLineScript, zapTargetUrlOption, "http://target"] ++
      commandTail c8Analysis)
    rfl rfl rfl rfl rfl (by decide) rfl
    (baselineScan_ok c8Analysis "http://target" rfl rfl)
    ⟨0, rfl⟩ rfl rfl rfl rfl rfl).1 sarifAll500World

lemma processItems_append (env : String → Option String)
    (l1 l2 : List (String × PyValue)) :
    ∀ c, processItems env c (l1 ++ l2) =
      match processItems env c l1 with
      | Except.error e => Except.error e
      | Except.ok c2 => processItems env c2 l2 := by
  induction l1 with
  | nil => intro c; rfl
  | cons kv rest ih =>
    intro c
    show processItems env c (kv :: (rest ++ l2)) = _
    cases kv with
    | mk k v =>
      simp only [processItems]
      cases processKey env c k v with
      | error e => rfl
      | ok c2 => exact ih c2

lemma parseConfiguration_eq (env : String → Option String)
    (conf : List (String × PyValue)) (tu : String) (htu : tu.isEmpty = false) :
    parseConfiguration env conf tu = processItems env { targetUrl := some tu } conf := by
  simp [parseConfiguration, validRequired, htu]

/-- Claim C10: a CLI invocation without an explicit `--gpat` string and
without a config file parses `gpat` to the non-string default `False`;
when configuration processing reaches the `gpat` key (the last namespace
item) it raises a `TypeError` from `"GITHUB PAT: " + value`, so the
whole run terminates as a fatal error with an empty trace — before any
scan or remote call. -/
theorem gpat_default_raises_type_error (env : String → Option String)
    (tu : String) (ov : List (String × PyValue))
    (htu : tu.isEmpty = false)
    (hov : ov.find? (fun p => p.1 == "gpat") = Option.none)
    (hreach : ∃ cfg2, processItems env { targetUrl := some tu }
      (cliNamespaceInit tu ov) = Except.ok cfg2) :
    parseArgs env tu ov Option.none = Except.error pyTypeErrorMessage ∧
    (∀ w, runAnalysis (Except.error pyTypeErrorMessage) w =
      (RunOutcome.exit1 (some pyTypeErrorMessage), [])) := by
  obtain ⟨cfg2, hc⟩ := hreach
  refine ⟨?_, fun w => rfl⟩
  show parseConfiguration env (cliNamespace tu ov) tu = Except.error pyTypeErrorMessage
  rw [parseConfiguration_eq env _ tu htu]
  show processItems env { targetUrl := some tu }
    (cliNamespaceInit tu ov ++ [("gpat", lookupOr ov "gpat" (PyValue.bool false))]) = _
  rw [processItems_append env (cliNamespaceInit tu ov) _ _, hc]
  have hl : lookupOr ov "gpat" (PyValue.bool false) = PyValue.bool false := by
    simp [lookupOr, hov]
  rw [hl]
  rfl

/-- Witness for C10: the concrete default CLI invocation fails with the
`TypeError` and the failed run performs no remote call. -/
theorem gpat_default_raises_type_error_witness :
    parseArgs c10Env "http://target" c10Flags Option.none =
      Except.error pyTypeErrorMessage ∧
    runAnalysis (Except.error pyTypeErrorMessage) c10World =
      (RunOutcome.exit1 (some pyTypeErrorMessage), []) := by
  have h := gpat_default_raises_type_error c10Env "http://target" c10Flags
    rfl rfl ⟨_, rfl⟩
  exact ⟨h.1, h.2 c10World⟩
